import Mathlib

set_option maxRecDepth 40000

/-!
Verification development for the `areacalc-hk` floor-plan area calculator.

The Python sources are shallowly embedded here:
  * `room_rules.py`       — rule table, `_find_rule`, `classify_room`
  * `area_calculator.py`  — `AreaCalculator.calculate`
  * `floor_plan_parser.py` — title-block filter, label cleaner, area regex,
    dimension calibration, OCR word-to-room conversion, DWG association

Modelling conventions:
  * Python floats are modelled as exact rationals (`ℚ`).  All numeric
    literals appearing in the sources (0.10, 0.5, multipliers, thresholds)
    are exactly representable decimals, and `round(x, n)` is modelled as
    round-half-to-even at `n` decimal places, which is Python's rounding
    mode.
  * Python strings are modelled as `String` / `List Char`; the membership
    test `kw in label` is substring containment.
  * Python regexes are translated operation-by-operation into executable
    matching functions that follow the `re` module semantics the sources
    rely on: leftmost search, ordered alternation, greedy quantifiers.
  * A Python function that can raise becomes `Except String`.
-/

/-! ## Basic utilities shared by the embeddings -/

/-- Whitespace characters, as recognised by Python's `str.strip()` and `\s`. -/
def isPyWS (c : Char) : Bool :=
  c = ' ' || c = '\t' || c = '\n' || c = '\r' || c = '\x0b' || c = '\x0c'

/-- Drop leading characters satisfying `p`. -/
def dropLeading (p : Char → Bool) (s : List Char) : List Char :=
  s.dropWhile p

/-- Drop trailing characters satisfying `p`. -/
def dropTrailing (p : Char → Bool) (s : List Char) : List Char :=
  (s.reverse.dropWhile p).reverse

/-- Python `str.strip()` (whitespace on both ends). -/
def pyStrip (s : List Char) : List Char :=
  dropTrailing isPyWS (dropLeading isPyWS s)

/-- Python `str.strip(chars)` for an explicit character set. -/
def pyStripChars (cs : List Char) (s : List Char) : List Char :=
  dropTrailing (fun c => cs.contains c) (dropLeading (fun c => cs.contains c) s)

/-- Python `str.lower()` (ASCII-adequate for the rule keywords). -/
def pyLower (s : List Char) : List Char :=
  s.map Char.toLower

/-- `headMatches pat s` : does `s` start with `pat`? -/
def headMatches : List Char → List Char → Bool
  | [], _ => true
  | _ :: _, [] => false
  | p :: ps, c :: cs => p = c && headMatches ps cs

/-- Python substring containment `pat in s` (empty pattern is contained). -/
def hasSub (s pat : List Char) : Bool :=
  match s with
  | [] => pat.isEmpty
  | _ :: t => headMatches pat s || hasSub t pat

/-- String-level substring containment. -/
def strHasSub (s pat : String) : Bool := hasSub s.data pat.data

/-- Round a rational to the nearest integer, ties to even — Python's
`round` mode for both `round()` and string formatting. -/
def rndHalfEven (q : ℚ) : ℤ :=
  let f : ℤ := q.floor
  let r : ℚ := q - f
  if r < 1 / 2 then f
  else if 1 / 2 < r then f + 1
  else if f % 2 = 0 then f else f + 1

/-- Python `round(q, n)` on the exact-rational model of floats. -/
def pyRound (n : ℕ) (q : ℚ) : ℚ :=
  (rndHalfEven (q * 10 ^ n) : ℚ) / 10 ^ n

/-- Digits of a natural number, via `Nat.repr`. -/
def natDigitsStr (n : ℕ) : String := toString n

/-- Python fixed-point formatting `f"{q:.n f}"` on the rational model:
round half-to-even at `n` places and print with exactly `n` decimals. -/
def fmtFixed (n : ℕ) (q : ℚ) : String :=
  let m : ℤ := rndHalfEven (q * 10 ^ n)
  let sign : String := if m < 0 then ("-") else ("")
  let a : ℕ := m.natAbs
  let whole : ℕ := a / 10 ^ n
  let frac : ℕ := a % 10 ^ n
  let fracStr : String := natDigitsStr frac
  let pad : String := String.mk (List.replicate (n - fracStr.length) ('0'))
  if n = 0 then sign ++ natDigitsStr whole
  else sign ++ natDigitsStr whole ++ (".") ++ pad ++ fracStr

/-- Python truthiness-based `a or b` for an optional float `a`:
`None` and `0.0` both fall through to `b`. -/
def pyOrQ (a : Option ℚ) (b : ℚ) : ℚ :=
  match a with
  | none => b
  | some v => if v = 0 then b else v

/-- Python truthiness-based `a or b` for strings: empty falls through. -/
def pyOrStr (a b : String) : String :=
  if a = ("") then b else a

/-- Leading digit run of a character list. -/
def leadDigits (s : List Char) : List Char := s.takeWhile Char.isDigit

/-- Remainder after the leading digit run. -/
def afterDigits (s : List Char) : List Char := s.dropWhile Char.isDigit

/-- Numeric value of a digit list (most significant first). -/
def digitsToNat (ds : List Char) : ℕ :=
  ds.foldl (fun a c => a * 10 + (c.toNat - ('0').toNat)) 0

/-- Value of `intpart.fracpart` as an exact rational. -/
def decimalToQ (intPart fracPart : List Char) : ℚ :=
  (digitsToNat intPart : ℚ) + (digitsToNat fracPart : ℚ) / 10 ^ fracPart.length

theorem hasSub_append_right (s t pat : List Char) (h : hasSub t pat = true) :
    hasSub (s ++ t) pat = true := by
  induction s with
  | nil => simpa using h
  | cons c cs ih =>
    simp only [List.cons_append, hasSub, Bool.or_eq_true]
    exact Or.inr ih

/-! ## Embedding of `room_rules.py` -/

/-- `BuildingType` enum. -/
inductive BuildingType where
  | residential
  | non_domestic
  | composite
  | hotel
deriving DecidableEq

/-- `InclusionRule` enum. -/
inductive InclusionRule where
  | full
  | half
  | excluded
  | conditional
deriving DecidableEq

/-- `AreaClassification` dataclass: result of classifying one room. -/
structure AreaClassification where
  room_type      : String
  area_m2        : ℚ
  building_type  : BuildingType
  gfa_rule       : InclusionRule
  gfa_multiplier : ℚ
  gfa_area_m2    : ℚ
  gfa_note       : String := ""
  is_concession      : Bool := false
  item_no            : String := ""
  concession_item    : String := ""
  pnap_ref           : String := ""
  subject_to_cap     : Bool := false
  requires_beam_plus : Bool := false
  requires_prereq    : Bool := false
  domestic           : Bool := true
  non_domestic       : Bool := false
  nofa_rule       : InclusionRule := InclusionRule.excluded
  nofa_multiplier : ℚ := 0
  nofa_area_m2    : ℚ := 0
  nofa_note       : String := ""
deriving DecidableEq

/-- One per-building-type override dictionary `{field: value}`; absent keys
are `none`.  Only the fields that actually occur in the table's `overrides`
dictionaries (plus the ones `classify_room` reads) are modelled. -/
structure RuleOverride where
  gfa_rule        : Option InclusionRule := none
  gfa_multiplier  : Option ℚ := none
  gfa_note        : Option String := none
  nofa_rule       : Option InclusionRule := none
  nofa_multiplier : Option ℚ := none
  nofa_note       : Option String := none
  is_concession   : Option Bool := none
deriving DecidableEq

/-- `RoomRule` dataclass (defaults as in the Python dataclass). -/
structure RoomRule where
  label    : String
  keywords : List String
  gfa_rule       : InclusionRule := InclusionRule.full
  gfa_multiplier : ℚ := 1
  gfa_note       : String := ""
  is_concession      : Bool := false
  item_no            : String := ""
  concession_item    : String := ""
  pnap_ref           : String := ""
  subject_to_cap     : Bool := false
  requires_beam_plus : Bool := false
  requires_prereq    : Bool := false
  domestic           : Bool := true
  non_domestic       : Bool := false
  nofa_rule       : InclusionRule := InclusionRule.excluded
  nofa_multiplier : ℚ := 0
  nofa_note       : String := ""
  overrides : List (BuildingType × RuleOverride) := []
deriving DecidableEq

/-! ### The static rule table `ROOM_RULES` (51 entries, in source order) -/

/-- Item 1: Carpark / Loading and Unloading Area. -/
def rule_carpark : RoomRule :=
  { label := "Carpark / Loading & Unloading Area"
    keywords := ["carpark", "car park", "car-park", "parking", "parking space",
      "loading", "unloading", "loading/unloading", "loading bay",
      "loading dock", "car lift", "car lift shaft"]
    gfa_rule := InclusionRule.excluded, gfa_multiplier := 0
    gfa_note := "100% disregarded under B(P)R 23(3)(b) — Item 1. Excludes Public Transport Terminus."
    is_concession := true
    item_no := "1"
    concession_item := "Carpark and Loading/Unloading Area excl. PTT"
    pnap_ref := "PNAP APP-2 & APP-111"
    subject_to_cap := false, requires_beam_plus := false, requires_prereq := false
    domestic := true, non_domestic := true
    nofa_rule := InclusionRule.excluded, nofa_multiplier := 0 }

/-- Item 2.1: Mandatory plant room, PNAP-limited area. -/
def rule_plant_pnap : RoomRule :=
  { label := "Mandatory Plant Room (PNAP-limited)"
    keywords := ["lift machine room", "lift motor room", "tbe room",
      "refuse storage", "material recovery chamber", "mrc",
      "refuse chamber", "waste chamber",
      "fire services pump room", "fs pump room",
      "sprinkler control valve", "svc cabinet"]
    gfa_rule := InclusionRule.excluded, gfa_multiplier := 0
    gfa_note := "Mandatory plant room with area limited by PNAP/Reg — exempt under Item 2.1. No cap."
    is_concession := true
    item_no := "2.1"
    concession_item := "Mandatory Plant Room (PNAP-limited area)"
    pnap_ref := "PNAP APP-35 & APP-84"
    subject_to_cap := false, requires_beam_plus := false, requires_prereq := false
    domestic := false, non_domestic := true
    nofa_rule := InclusionRule.excluded, nofa_multiplier := 0 }

/-- Item 2.2: Mandatory plant room, area not limited. -/
def rule_plant_unlimited : RoomRule :=
  { label := "Mandatory Plant Room (not PNAP-limited)"
    keywords := ["transformer room", "main switch room", "msr",
      "electrical switch room", "hv room", "lv room", "hv/lv room",
      "water meter cabinet", "meter room", "meter cabinet",
      "water tank", "potable water tank", "flushing water tank",
      "pump room", "booster pump", "water pump",
      "substation", "sub-station",
      "rs & mrc", "rs&mrc",
      "pd"]
    gfa_rule := InclusionRule.excluded, gfa_multiplier := 0
    gfa_note := "Mandatory plant room (area not limited by PNAP/Reg) — exempt under Item 2.2. No cap."
    is_concession := true
    item_no := "2.2"
    concession_item := "Mandatory Plant Room (not PNAP-limited)"
    pnap_ref := "PNAP APP-2 & APP-42"
    subject_to_cap := false, requires_beam_plus := false, requires_prereq := false
    domestic := true, non_domestic := true
    nofa_rule := InclusionRule.excluded, nofa_multiplier := 0 }

/-- Item 2.3: Non-mandatory / non-essential plant room. -/
def rule_plant_nonmand : RoomRule :=
  { label := "Non-Mandatory Plant Room"
    keywords := ["plant room", "a/c plant", "ac plant", "ahu room",
      "air handling unit", "chiller room", "cooling tower",
      "mechanical room", "m&e room", "bms room", "building services",
      "boiler room", "smatv room", "telecom room",
      "electrical room", "genset", "generator room"]
    gfa_rule := InclusionRule.conditional, gfa_multiplier := 0
    gfa_note := "Non-mandatory plant room — subject to 10% overall cap AND prerequisites (P) under Item 2.3."
    is_concession := true
    item_no := "2.3"
    concession_item := "Non-Mandatory / Non-Essential Plant Room"
    pnap_ref := "PNAP APP-2 & APP-42"
    subject_to_cap := true, requires_beam_plus := false, requires_prereq := true
    domestic := true, non_domestic := true
    nofa_rule := InclusionRule.excluded, nofa_multiplier := 0 }

/-- Item 3: Hotel pick-up / set-down area (with per-building-type overrides). -/
def rule_hotel_pickup : RoomRule :=
  { label := "Hotel Pick-up / Set-down Area"
    keywords := ["hotel pickup", "hotel drop-off", "hotel set down",
      "hotel porte cochere", "porte-cochère"]
    gfa_rule := InclusionRule.excluded, gfa_multiplier := 0
    gfa_note := "Hotel pick-up/set-down area — exempt under Item 3 (B(P)R 23A(3)). Hotel buildings only."
    is_concession := true
    item_no := "3"
    concession_item := "Hotel Pick-up / Set-down Area"
    pnap_ref := "PNAP APP-40"
    subject_to_cap := false, requires_beam_plus := false, requires_prereq := false
    domestic := false, non_domestic := true
    nofa_rule := InclusionRule.excluded, nofa_multiplier := 0
    overrides := [
      (BuildingType.hotel, {}),
      (BuildingType.residential,
        { gfa_rule := some InclusionRule.full, gfa_multiplier := some 1,
          is_concession := some false }),
      (BuildingType.non_domestic,
        { gfa_rule := some InclusionRule.full, gfa_multiplier := some 1,
          is_concession := some false }),
      (BuildingType.composite,
        { gfa_rule := some InclusionRule.full, gfa_multiplier := some 1,
          is_concession := some false })] }

/-- Item 4: Hotel supporting facilities. -/
def rule_hotel_support : RoomRule :=
  { label := "Hotel Supporting Facilities"
    keywords := ["hotel laundry", "hotel linen", "hotel back of house",
      "hotel boh", "hotel housekeeping"]
    gfa_rule := InclusionRule.excluded, gfa_multiplier := 0
    gfa_note := "Hotel supporting facilities — exempt under Item 4. Hotel only."
    is_concession := true
    item_no := "4"
    concession_item := "Hotel Supporting Facilities"
    pnap_ref := "PNAP APP-40"
    subject_to_cap := false, requires_beam_plus := false, requires_prereq := false
    domestic := false, non_domestic := true
    nofa_rule := InclusionRule.excluded, nofa_multiplier := 0 }

/-- Item 5: Balcony (residential). -/
def rule_balcony : RoomRule :=
  { label := "Balcony"
    keywords := ["balcony", "balc", "verandah", "veranda"]
    gfa_rule := InclusionRule.conditional, gfa_multiplier := 0.5
    gfa_note := "Balcony — 50% GFA multiplier when claiming Item 5 concession. Max exemption = 10% of UFS of flat. Subject to overall 10% cap. Prerequisites (P) apply. JPN1."
    is_concession := true
    item_no := "5"
    concession_item := "Balcony for Residential Buildings"
    pnap_ref := "JPN1"
    subject_to_cap := true, requires_beam_plus := true, requires_prereq := true
    domestic := true, non_domestic := false
    nofa_rule := InclusionRule.excluded, nofa_multiplier := 0
    nofa_note := "Balconies excluded from NOFA." }

/-- Item 6: Wider common corridor / lift lobby. -/
def rule_wider_corridor : RoomRule :=
  { label := "Wider Common Corridor / Lift Lobby (JPN1)"
    keywords := ["wider corridor", "wider common corridor",
      "wider lift lobby", "enlarged corridor"]
    gfa_rule := InclusionRule.conditional, gfa_multiplier := 0
    gfa_note := "Wider common corridor / lift lobby — Item 6 concession. Subject to 10% cap. Prerequisites (P) apply. JPN1."
    is_concession := true
    item_no := "6"
    concession_item := "Wider Common Corridor and Lift Lobby"
    pnap_ref := "JPN1"
    subject_to_cap := true, requires_beam_plus := true, requires_prereq := true
    domestic := true, non_domestic := false
    nofa_rule := InclusionRule.excluded, nofa_multiplier := 0 }

/-- Item 7: Communal sky garden. -/
def rule_sky_garden : RoomRule :=
  { label := "Communal Sky Garden"
    keywords := ["sky garden", "communal sky garden", "sky terrace",
      "communal roof garden", "communal terrace"]
    gfa_rule := InclusionRule.excluded, gfa_multiplier := 0
    gfa_note := "Communal sky garden — exempt (not subject to 10% cap) under Item 7. Prerequisites (P) apply. JPN1 & JPN2."
    is_concession := true
    item_no := "7"
    concession_item := "Communal Sky Garden"
    pnap_ref := "JPN1 & JPN2, PNAP APP-122"
    subject_to_cap := false, requires_beam_plus := true, requires_prereq := true
    domestic := true, non_domestic := false
    nofa_rule := InclusionRule.excluded, nofa_multiplier := 0 }

/-- Item 8: Communal podium garden (non-residential). -/
def rule_podium_garden : RoomRule :=
  { label := "Communal Podium Garden"
    keywords := ["podium garden", "communal podium", "podium landscape",
      "communal garden", "landscaped area", "play area",
      "communal landscaped"]
    gfa_rule := InclusionRule.excluded, gfa_multiplier := 0
    gfa_note := "Communal podium garden (non-residential) — exempt under Item 8. Prerequisites (P) apply. JPN1."
    is_concession := true
    item_no := "8"
    concession_item := "Communal Podium Garden for Non-Residential Buildings"
    pnap_ref := "JPN1"
    subject_to_cap := false, requires_beam_plus := true, requires_prereq := true
    domestic := false, non_domestic := true
    nofa_rule := InclusionRule.excluded, nofa_multiplier := 0 }

/-- Item 9: Acoustic fin. -/
def rule_acoustic_fin : RoomRule :=
  { label := "Acoustic Fin"
    keywords := ["acoustic fin", "noise fin", "acoustic screen",
      "acoustic barrier fin"]
    gfa_rule := InclusionRule.excluded, gfa_multiplier := 0
    gfa_note := "Acoustic fin — exempt under Item 9. Prerequisites (P) apply. JPN1."
    is_concession := true
    item_no := "9"
    concession_item := "Acoustic Fin"
    pnap_ref := "JPN1"
    subject_to_cap := false, requires_beam_plus := true, requires_prereq := true
    domestic := true, non_domestic := false
    nofa_rule := InclusionRule.excluded, nofa_multiplier := 0 }

/-- Item 10: Wing wall / wind catcher / funnel. -/
def rule_wing_wall : RoomRule :=
  { label := "Wing Wall / Wind Catcher / Funnel"
    keywords := ["wing wall", "wind catcher", "wind funnel",
      "wind scoop", "venturi", "air funnel"]
    gfa_rule := InclusionRule.excluded, gfa_multiplier := 0
    gfa_note := "Wing wall / wind catcher / funnel — exempt under Item 10. Prerequisites (P) apply. JPN1."
    is_concession := true
    item_no := "10"
    concession_item := "Wing Wall, Wind Catcher and Funnel"
    pnap_ref := "JPN1"
    subject_to_cap := false, requires_beam_plus := true, requires_prereq := true
    domestic := true, non_domestic := false
    nofa_rule := InclusionRule.excluded, nofa_multiplier := 0 }

/-- Item 11: Non-structural prefabricated external wall. -/
def rule_prefab_wall : RoomRule :=
  { label := "Non-Structural Prefabricated External Wall"
    keywords := ["precasted facade", "precast facade", "non-structural prefab",
      "prefabricated external wall", "pc facade", "dc"]
    gfa_rule := InclusionRule.conditional, gfa_multiplier := 0
    gfa_note := "Non-structural prefabricated external wall — subject to 10% cap under Item 11. Prerequisites (P) apply. JPN2."
    is_concession := true
    item_no := "11"
    concession_item := "Non-Structural Prefabricated External Wall"
    pnap_ref := "JPN2"
    subject_to_cap := true, requires_beam_plus := true, requires_prereq := true
    domestic := true, non_domestic := true
    nofa_rule := InclusionRule.excluded, nofa_multiplier := 0 }

/-- Item 12: Utility platform. -/
def rule_utility_platform : RoomRule :=
  { label := "Utility Platform"
    keywords := ["utility platform", "u/p", "up ", " up",
      "service platform", "u1", "u2", "u3", "u4"]
    gfa_rule := InclusionRule.conditional, gfa_multiplier := 0.5
    gfa_note := "Utility platform — 50% GFA multiplier under Item 12. Max exemption = 50% of area (cap at 1.5m² per flat). Subject to overall 10% cap. Prerequisites (P) apply. JPN2."
    is_concession := true
    item_no := "12"
    concession_item := "Utility Platform"
    pnap_ref := "JPN2"
    subject_to_cap := true, requires_beam_plus := true, requires_prereq := true
    domestic := true, non_domestic := false
    nofa_rule := InclusionRule.excluded, nofa_multiplier := 0
    nofa_note := "Utility platform excluded from NOFA." }

/-- Item 13: Noise barrier. -/
def rule_noise_barrier : RoomRule :=
  { label := "Noise Barrier"
    keywords := ["noise barrier", "sound barrier", "acoustic wall",
      "noise screen"]
    gfa_rule := InclusionRule.excluded, gfa_multiplier := 0
    gfa_note := "Noise barrier — exempt under Item 13. Prerequisites (P) apply. JPN2."
    is_concession := true
    item_no := "13"
    concession_item := "Noise Barrier"
    pnap_ref := "JPN2"
    subject_to_cap := false, requires_beam_plus := true, requires_prereq := true
    domestic := true, non_domestic := false
    nofa_rule := InclusionRule.excluded, nofa_multiplier := 0 }

/-- Item 14: Caretaker / management facilities. -/
def rule_caretaker : RoomRule :=
  { label := "Caretaker / Management Facilities"
    keywords := ["caretaker", "care taker", "caretaker room", "caretaker office",
      "management office", "owners committee", "owners corporation",
      "guard room", "security office", "watchman",
      "ndc"]
    gfa_rule := InclusionRule.conditional, gfa_multiplier := 0
    gfa_note := "Caretaker / management facilities — subject to 10% cap under Item 14. Prerequisites (P) apply. PNAP APP-42."
    is_concession := true
    item_no := "14"
    concession_item := "Caretakers' Quarters, Management Office, Owners' Corporation"
    pnap_ref := "PNAP APP-42"
    subject_to_cap := true, requires_beam_plus := true, requires_prereq := true
    domestic := true, non_domestic := true
    nofa_rule := InclusionRule.excluded, nofa_multiplier := 0 }

/-- Item 15: Residential recreational facilities. -/
def rule_recreational : RoomRule :=
  { label := "Residential Recreational Facility"
    keywords := ["recreational", "recreation room", "gym", "gymnasium",
      "swimming pool", "pool deck", "function room", "clubhouse",
      "multi-purpose room", "social activity room", "ndc4", "ndc5", "ndc6",
      "covered walkway", "recreational facilities",
      "changing room", "locker room"]
    gfa_rule := InclusionRule.conditional, gfa_multiplier := 0
    gfa_note := "Residential recreational facilities — subject to 10% cap under Item 15. Max = 5% domestic GFA (APP-104). Prerequisites (P) apply."
    is_concession := true
    item_no := "15"
    concession_item := "Residential Recreational Facilities"
    pnap_ref := "PNAP APP-2, APP-42 & APP-104"
    subject_to_cap := true, requires_beam_plus := true, requires_prereq := true
    domestic := true, non_domestic := false
    nofa_rule := InclusionRule.excluded, nofa_multiplier := 0 }

/-- Item 16: Covered landscaped / play area. -/
def rule_covered_landscape : RoomRule :=
  { label := "Covered Landscaped / Play Area"
    keywords := ["covered landscape", "covered landscaped", "covered play area",
      "landscape area", "covered green", "amenity deck"]
    gfa_rule := InclusionRule.excluded, gfa_multiplier := 0
    gfa_note := "Covered landscaped and play area — exempt (not subject to 10% cap) under Item 16. Prerequisites (P) apply. PNAP APP-42."
    is_concession := true
    item_no := "16"
    concession_item := "Covered Landscaped and Play Area"
    pnap_ref := "PNAP APP-42"
    subject_to_cap := false, requires_beam_plus := true, requires_prereq := true
    domestic := true, non_domestic := false
    nofa_rule := InclusionRule.excluded, nofa_multiplier := 0 }

/-- Item 17: Trellis / covered walkway / horizontal screen. -/
def rule_trellis : RoomRule :=
  { label := "Trellis / Covered Walkway / Horizontal Screen"
    keywords := ["trellis", "covered walkway", "horizontal screen",
      "pergola", "louvered canopy", "screen roof",
      "dc2", "dc3"]
    gfa_rule := InclusionRule.excluded, gfa_multiplier := 0
    gfa_note := "Trellis / covered walkway / horizontal screen — exempt under Item 17. Subject to 5% of roof area cap (max 20m²). Prerequisites (P) apply. PNAP APP-42."
    is_concession := true
    item_no := "17"
    concession_item := "Horizontal Screen, Covered Walkway and Trellis"
    pnap_ref := "PNAP APP-42"
    subject_to_cap := false, requires_beam_plus := true, requires_prereq := true
    domestic := true, non_domestic := true
    nofa_rule := InclusionRule.excluded, nofa_multiplier := 0 }

/-- Item 18: Larger lift shaft. -/
def rule_lift_shaft : RoomRule :=
  { label := "Lift Shaft"
    keywords := ["lift shaft", "elevator shaft", "lift core", "l1", "l2", "l3"]
    gfa_rule := InclusionRule.conditional, gfa_multiplier := 0
    gfa_note := "Larger lift shaft — exempt (excess over 2.5% of GFA) under Item 18. Max exemption = 3.5% of total GFA. Prerequisites (P) apply. PNAP APP-89."
    is_concession := true
    item_no := "18"
    concession_item := "Larger Lift Shaft"
    pnap_ref := "PNAP APP-89"
    subject_to_cap := false, requires_beam_plus := true, requires_prereq := true
    domestic := true, non_domestic := true
    nofa_rule := InclusionRule.excluded, nofa_multiplier := 0 }

/-- Item 19: Chimney shaft. -/
def rule_chimney : RoomRule :=
  { label := "Chimney Shaft"
    keywords := ["chimney", "chimney shaft", "flue shaft", "exhaust shaft"]
    gfa_rule := InclusionRule.conditional, gfa_multiplier := 0
    gfa_note := "Chimney shaft — subject to 10% cap under Item 19. Prerequisites (P) apply. PNAP APP-2."
    is_concession := true
    item_no := "19"
    concession_item := "Chimney Shaft"
    pnap_ref := "PNAP APP-2"
    subject_to_cap := true, requires_beam_plus := true, requires_prereq := true
    domestic := true, non_domestic := true
    nofa_rule := InclusionRule.excluded, nofa_multiplier := 0 }

/-- Item 20: Other non-mandatory plant room. -/
def rule_other_plant : RoomRule :=
  { label := "Other Non-Mandatory Plant Room"
    keywords := ["boiler room", "smatv", "iptv room", "it room",
      "server room", "data room", "comm room", "communication room",
      "security room", "cctv room", "bms", "ibms"]
    gfa_rule := InclusionRule.conditional, gfa_multiplier := 0
    gfa_note := "Other non-mandatory plant room — subject to 10% cap under Item 20. Prerequisites (P) apply. PNAP APP-2."
    is_concession := true
    item_no := "20"
    concession_item := "Other Non-Mandatory Plant Room (Boiler, SMATV etc.)"
    pnap_ref := "PNAP APP-2"
    subject_to_cap := true, requires_beam_plus := true, requires_prereq := true
    domestic := true, non_domestic := true
    nofa_rule := InclusionRule.excluded, nofa_multiplier := 0 }

/-- Item 21: Pipe duct / air duct for mandatory feature. -/
def rule_pipe_duct_mand : RoomRule :=
  { label := "Pipe Duct / Air Duct (Mandatory)"
    keywords := ["pipe duct", "air duct", "riser duct", "services duct",
      "duct room", "vertical duct", "riser shaft",
      "fsi duct", "fire services duct"]
    gfa_rule := InclusionRule.excluded, gfa_multiplier := 0
    gfa_note := "Pipe / air duct for mandatory feature — exempt under Item 21. No cap. PNAP APP-2 & APP-93."
    is_concession := true
    item_no := "21"
    concession_item := "Pipe Duct / Air Duct for Mandatory Feature"
    pnap_ref := "PNAP APP-2 & APP-93"
    subject_to_cap := false, requires_beam_plus := false, requires_prereq := false
    domestic := true, non_domestic := true
    nofa_rule := InclusionRule.excluded, nofa_multiplier := 0 }

/-- Item 22: Pipe duct / air duct for non-mandatory feature. -/
def rule_pipe_duct_nonmand : RoomRule :=
  { label := "Pipe Duct / Air Duct (Non-Mandatory)"
    keywords := ["a/c duct", "ac duct", "hvac duct", "condensate duct",
      "drainage duct", "chilled water duct"]
    gfa_rule := InclusionRule.conditional, gfa_multiplier := 0
    gfa_note := "Pipe / air duct for non-mandatory feature — subject to 10% cap under Item 22. Prerequisites (P) apply. PNAP APP-2."
    is_concession := true
    item_no := "22"
    concession_item := "Pipe Duct / Air Duct for Non-Mandatory Feature"
    pnap_ref := "PNAP APP-2"
    subject_to_cap := true, requires_beam_plus := true, requires_prereq := true
    domestic := true, non_domestic := true
    nofa_rule := InclusionRule.excluded, nofa_multiplier := 0 }

/-- Item 23: Plant room / duct for environmentally friendly system. -/
def rule_ef_plant : RoomRule :=
  { label := "Plant Room / Duct for EF System"
    keywords := ["solar panel room", "renewable energy room", "green energy plant",
      "ev charging room", "photovoltaic plant", "pv room",
      "wind turbine room", "ef plant", "environmental plant"]
    gfa_rule := InclusionRule.excluded, gfa_multiplier := 0
    gfa_note := "Plant room / duct for environmentally friendly system — exempt under Item 23. Prerequisites (P) apply. PNAP APP-2."
    is_concession := true
    item_no := "23"
    concession_item := "Plant Room / Duct for Environmentally Friendly System"
    pnap_ref := "PNAP APP-2"
    subject_to_cap := false, requires_beam_plus := true, requires_prereq := true
    domestic := true, non_domestic := false
    nofa_rule := InclusionRule.excluded, nofa_multiplier := 0 }

/-- Item 24: High headroom void in non-domestic development. -/
def rule_high_headroom : RoomRule :=
  { label := "High Headroom Void (Non-Domestic)"
    keywords := ["high headroom", "void over cinema", "void over arcade",
      "atrium void", "high bay void", "double height void"]
    gfa_rule := InclusionRule.excluded, gfa_multiplier := 0
    gfa_note := "High headroom / void in non-domestic development — exempt under Item 24. Prerequisites (P) apply. PNAP APP-2."
    is_concession := true
    item_no := "24"
    concession_item := "High Headroom and Void (Non-Domestic)"
    pnap_ref := "PNAP APP-2"
    subject_to_cap := false, requires_beam_plus := true, requires_prereq := true
    domestic := false, non_domestic := true
    nofa_rule := InclusionRule.excluded, nofa_multiplier := 0 }

/-- Item 25: Void over main common entrance (non-domestic). -/
def rule_entrance_void : RoomRule :=
  { label := "Void over Main Entrance (Non-Domestic)"
    keywords := ["prestige entrance", "void over entrance", "main entrance void",
      "entrance atrium", "entrance canopy void"]
    gfa_rule := InclusionRule.conditional, gfa_multiplier := 0
    gfa_note := "Void over main common entrance (non-domestic) — subject to 10% cap under Item 25. Prerequisites (P) apply. PNAP APP-2 & APP-42."
    is_concession := true
    item_no := "25"
    concession_item := "Void over Main Common Entrance (Non-Domestic)"
    pnap_ref := "PNAP APP-2 & APP-42"
    subject_to_cap := true, requires_beam_plus := true, requires_prereq := true
    domestic := false, non_domestic := true
    nofa_rule := InclusionRule.excluded, nofa_multiplier := 0 }

/-- Item 26: Void in duplex domestic flat. -/
def rule_duplex_void : RoomRule :=
  { label := "Void in Duplex Flat"
    keywords := ["duplex void", "void in duplex", "internal void",
      "double height flat", "v1", "v2"]
    gfa_rule := InclusionRule.conditional, gfa_multiplier := 0
    gfa_note := "Void in duplex domestic flat — subject to 10% cap under Item 26. Max = 10% of UFS; overall cap 0.5% of total domestic GFA. Prerequisites (P) apply. PNAP APP-2."
    is_concession := true
    item_no := "26"
    concession_item := "Void in Duplex Domestic Flat and House"
    pnap_ref := "PNAP APP-2"
    subject_to_cap := true, requires_beam_plus := true, requires_prereq := true
    domestic := true, non_domestic := false
    nofa_rule := InclusionRule.excluded, nofa_multiplier := 0 }

/-- Item 27: Sunshade / reflector. -/
def rule_sunshade : RoomRule :=
  { label := "Sunshade / Reflector"
    keywords := ["sunshade", "sun shade", "solar reflector", "light shelf",
      "solar shading", "external blind", "external shading"]
    gfa_rule := InclusionRule.excluded, gfa_multiplier := 0
    gfa_note := "Sunshade / reflector — exempt under Item 27. No cap. PNAP APP-19, APP-67 & APP-156."
    is_concession := true
    item_no := "27"
    concession_item := "Sunshade and Reflector"
    pnap_ref := "PNAP APP-19, APP-67 & APP-156"
    subject_to_cap := false, requires_beam_plus := false, requires_prereq := false
    domestic := true, non_domestic := true
    nofa_rule := InclusionRule.excluded, nofa_multiplier := 0 }

/-- Item 28: Minor projection (A/C box, window cill, etc.). -/
def rule_minor_projection : RoomRule :=
  { label := "Minor Projection (A/C Box / Window Cill)"
    keywords := ["ac box", "a/c box", "air con box", "air conditioning box",
      "a/c platform", "ac platform", "ac1", "ac2",
      "window cill", "window sill", "projecting window",
      "minor projection"]
    gfa_rule := InclusionRule.excluded, gfa_multiplier := 0
    gfa_note := "Minor projection (A/C box, A/C platform, window cill, projecting window) — exempt under Item 28. No cap. PNAP APP-19 & APP-42."
    is_concession := true
    item_no := "28"
    concession_item := "Minor Projection (A/C Box, A/C Platform, Window Cill)"
    pnap_ref := "PNAP APP-19 & APP-42"
    subject_to_cap := false, requires_beam_plus := false, requires_prereq := false
    domestic := true, non_domestic := false
    nofa_rule := InclusionRule.excluded, nofa_multiplier := 0 }

/-- Item 29: Other projection. -/
def rule_other_projection : RoomRule :=
  { label := "Other Projection"
    keywords := ["other projection", "large projection", "bay window"]
    gfa_rule := InclusionRule.conditional, gfa_multiplier := 0
    gfa_note := "Other projection not covered by Item 28 — subject to 10% cap under Item 29. Prerequisites (P) apply. PNAP APP-19."
    is_concession := true
    item_no := "29"
    concession_item := "Other Projection (not under Item 28)"
    pnap_ref := "PNAP APP-19"
    subject_to_cap := true, requires_beam_plus := true, requires_prereq := true
    domestic := true, non_domestic := true
    nofa_rule := InclusionRule.excluded, nofa_multiplier := 0 }

/-- Item 30: Refuge floor. -/
def rule_refuge : RoomRule :=
  { label := "Refuge Floor"
    keywords := ["refuge floor", "refuge level", "fireman lift lobby",
      "refuge cum sky garden", "refuge sky garden"]
    gfa_rule := InclusionRule.excluded, gfa_multiplier := 0
    gfa_note := "Refuge floor (incl. cum sky garden) — exempt under Item 30. No cap. PNAP APP-2 & APP-122."
    is_concession := true
    item_no := "30"
    concession_item := "Refuge Floor incl. Refuge Floor cum Sky Garden"
    pnap_ref := "PNAP APP-2 & APP-122"
    subject_to_cap := false, requires_beam_plus := false, requires_prereq := false
    domestic := true, non_domestic := true
    nofa_rule := InclusionRule.excluded, nofa_multiplier := 0 }

/-- Item 31: Covered area under large projecting feature. -/
def rule_covered_under_projection : RoomRule :=
  { label := "Covered Area under Large Projection"
    keywords := ["covered area under projection", "covered under overhang",
      "covered under canopy", "area under projection"]
    gfa_rule := InclusionRule.excluded, gfa_multiplier := 0
    gfa_note := "Covered area under large projecting / overhanging feature — exempt under Item 31. No cap. PNAP APP-19."
    is_concession := true
    item_no := "31"
    concession_item := "Covered Area under Large Projecting/Overhanging Feature"
    pnap_ref := "PNAP APP-19"
    subject_to_cap := false, requires_beam_plus := false, requires_prereq := false
    domestic := true, non_domestic := true
    nofa_rule := InclusionRule.excluded, nofa_multiplier := 0 }

/-- Item 32: Public transport terminus. -/
def rule_ptt : RoomRule :=
  { label := "Public Transport Terminus"
    keywords := ["public transport terminus", "ptt", "bus terminus",
      "minibus terminus", "ferry terminus"]
    gfa_rule := InclusionRule.excluded, gfa_multiplier := 0
    gfa_note := "Public transport terminus — 100% disregarded under Item 32. No cap. PNAP APP-2."
    is_concession := true
    item_no := "32"
    concession_item := "Public Transport Terminus (PTT)"
    pnap_ref := "PNAP APP-2"
    subject_to_cap := false, requires_beam_plus := false, requires_prereq := false
    domestic := false, non_domestic := true
    nofa_rule := InclusionRule.excluded, nofa_multiplier := 0 }

/-- Item 33: Party structure / common staircase. -/
def rule_party_structure : RoomRule :=
  { label := "Party Structure / Common Staircase"
    keywords := ["party structure", "party wall", "common staircase",
      "shared staircase", "party stair"]
    gfa_rule := InclusionRule.excluded, gfa_multiplier := 0
    gfa_note := "Party structure and common staircase — exempt under Item 33. No cap. PNAP ADM-2."
    is_concession := true
    item_no := "33"
    concession_item := "Party Structure and Common Staircase"
    pnap_ref := "PNAP ADM-2"
    subject_to_cap := false, requires_beam_plus := false, requires_prereq := false
    domestic := true, non_domestic := true
    nofa_rule := InclusionRule.excluded, nofa_multiplier := 0 }

/-- Item 34: Staircase / lift shaft / vertical duct (GFA-excluded). -/
def rule_staircase : RoomRule :=
  { label := "Staircase / Vertical Duct (GFA-Excluded)"
    keywords := ["staircase", "stair", "stairwell", "fire stair",
      "escape stair", "vertical duct", "services shaft",
      "floor", "roof floor",
      "c02", "c03"]
    gfa_rule := InclusionRule.excluded, gfa_multiplier := 0
    gfa_note := "Horizontal area of staircase / lift shaft / vertical duct accepted as non-accountable GFA under Item 34. No cap. PNAP APP-2."
    is_concession := true
    item_no := "34"
    concession_item := "Staircase, Lift Shaft and Vertical Duct (GFA-Excluded)"
    pnap_ref := "PNAP APP-2"
    subject_to_cap := false, requires_beam_plus := false, requires_prereq := false
    domestic := true, non_domestic := true
    nofa_rule := InclusionRule.excluded, nofa_multiplier := 0 }

/-- Item 35: Public passage. -/
def rule_public_passage : RoomRule :=
  { label := "Public Passage"
    keywords := ["public passage", "public walkway", "public arcade",
      "through-site link", "public atrium"]
    gfa_rule := InclusionRule.excluded, gfa_multiplier := 0
    gfa_note := "Public passage — exempt under Item 35. No cap. PNAP APP-108."
    is_concession := true
    item_no := "35"
    concession_item := "Public Passage"
    pnap_ref := "PNAP APP-108"
    subject_to_cap := false, requires_beam_plus := false, requires_prereq := false
    domestic := false, non_domestic := true
    nofa_rule := InclusionRule.excluded, nofa_multiplier := 0 }

/-- Item 36: Covered set-back area. -/
def rule_setback : RoomRule :=
  { label := "Covered Set-Back Area"
    keywords := ["covered set back", "covered setback", "set-back area",
      "set back area", "setback canopy"]
    gfa_rule := InclusionRule.excluded, gfa_multiplier := 0
    gfa_note := "Covered set-back area — exempt under Item 36. No cap. PNAP APP-152."
    is_concession := true
    item_no := "36"
    concession_item := "Covered Set-Back Area"
    pnap_ref := "PNAP APP-152"
    subject_to_cap := false, requires_beam_plus := false, requires_prereq := false
    domestic := false, non_domestic := true
    nofa_rule := InclusionRule.excluded, nofa_multiplier := 0 }

/-- Item 37: Bonus GFA. -/
def rule_bonus : RoomRule :=
  { label := "Bonus GFA Feature"
    keywords := ["bonus gfa", "public open space", "pos",
      "ground level open space"]
    gfa_rule := InclusionRule.excluded, gfa_multiplier := 0
    gfa_note := "Bonus GFA — exempt under Item 37. PNAP APP-108."
    is_concession := true
    item_no := "37"
    concession_item := "Bonus GFA"
    pnap_ref := "PNAP APP-108"
    subject_to_cap := false, requires_beam_plus := false, requires_prereq := false
    domestic := false, non_domestic := true
    nofa_rule := InclusionRule.excluded, nofa_multiplier := 0 }

/-- Item 38: Modular Integrated Construction (MiC). -/
def rule_mic : RoomRule :=
  { label := "MiC Module / MiC Floor Area"
    keywords := ["mic", "modular integrated construction",
      "modular integrated", "mic floor", "mic area",
      "prefab module", "modular unit"]
    gfa_rule := InclusionRule.excluded, gfa_multiplier := 0
    gfa_note := "Modular Integrated Construction (MiC) 10% floor area — exempt (not subject to overall cap) under Item 38. Max = 10% of GFA of the MiC floors. JPN8."
    is_concession := true
    item_no := "38"
    concession_item := "Buildings Adopting Modular Integrated Construction (MiC)"
    pnap_ref := "JPN8"
    subject_to_cap := false, requires_beam_plus := false, requires_prereq := false
    domestic := true, non_domestic := false
    nofa_rule := InclusionRule.excluded, nofa_multiplier := 0 }

/-- Habitable: flat / domestic unit. -/
def rule_flat : RoomRule :=
  { label := "Flat / Domestic Unit"
    keywords := ["flat", "flat a", "flat b", "flat c", "flat d",
      "unit", "apartment", "domestic unit", "residential unit",
      "ad"]
    gfa_rule := InclusionRule.full, gfa_multiplier := 1
    gfa_note := "Domestic flat / unit — full GFA per PNAP APP-2."
    nofa_rule := InclusionRule.full, nofa_multiplier := 1
    nofa_note := "Domestic usable floor space — included in NOFA." }

/-- Habitable: bedroom. -/
def rule_bedroom : RoomRule :=
  { label := "Bedroom"
    keywords := ["bedroom", "bed room", "master bed", "master bedroom",
      "mbr", "ensuite bedroom"]
    gfa_rule := InclusionRule.full, gfa_multiplier := 1
    nofa_rule := InclusionRule.full, nofa_multiplier := 1
    nofa_note := "Habitable room — included in NOFA." }

/-- Habitable: living / dining room. -/
def rule_living : RoomRule :=
  { label := "Living / Dining Room"
    keywords := ["living", "lounge", "sitting", "reception", "dining",
      "living/dining", "living room", "dining room"]
    gfa_rule := InclusionRule.full, gfa_multiplier := 1
    nofa_rule := InclusionRule.full, nofa_multiplier := 1 }

/-- Habitable: kitchen. -/
def rule_kitchen : RoomRule :=
  { label := "Kitchen"
    keywords := ["kitchen", "kitch", "kitchenette", "cooking"]
    gfa_rule := InclusionRule.full, gfa_multiplier := 1
    nofa_rule := InclusionRule.full, nofa_multiplier := 1 }

/-- Habitable: study / home office. -/
def rule_study : RoomRule :=
  { label := "Study / Home Office"
    keywords := ["study", "home office", "work room", "library"]
    gfa_rule := InclusionRule.full, gfa_multiplier := 1
    nofa_rule := InclusionRule.full, nofa_multiplier := 1 }

/-- Service: bathroom / toilet / WC. -/
def rule_bathroom : RoomRule :=
  { label := "Bathroom / Toilet / WC"
    keywords := ["bathroom", "toilet", "wc", "lavatory", "washroom",
      "ensuite", "en-suite", "powder room", "accessible toilet"]
    gfa_rule := InclusionRule.full, gfa_multiplier := 1
    gfa_note := "Wet room — full GFA."
    nofa_rule := InclusionRule.excluded, nofa_multiplier := 0
    nofa_note := "Wet rooms excluded from NOFA per HK convention." }

/-- Service: internal corridor / hallway. -/
def rule_corridor : RoomRule :=
  { label := "Internal Corridor / Hallway"
    keywords := ["corridor", "hallway", "hall", "passage",
      "entrance hall", "foyer", "circulation"]
    gfa_rule := InclusionRule.full, gfa_multiplier := 1
    nofa_rule := InclusionRule.excluded, nofa_multiplier := 0
    nofa_note := "Circulation spaces excluded from NOFA." }

/-- Service: common lift lobby / entrance lobby. -/
def rule_lobby : RoomRule :=
  { label := "Common Lift Lobby / Entrance Lobby"
    keywords := ["lift lobby", "elevator lobby", "common lobby",
      "entrance lobby", "domestic entrance", "lobby"]
    gfa_rule := InclusionRule.full, gfa_multiplier := 1
    nofa_rule := InclusionRule.excluded, nofa_multiplier := 0 }

/-- Service: storage / utility room. -/
def rule_storage : RoomRule :=
  { label := "Storage / Utility Room"
    keywords := ["store", "storage", "storeroom", "utility room", "cls", "cloak"]
    gfa_rule := InclusionRule.full, gfa_multiplier := 1
    nofa_rule := InclusionRule.excluded, nofa_multiplier := 0
    nofa_note := "Storage excluded from NOFA." }

/-- Non-domestic: F&B / retail. -/
def rule_fnb : RoomRule :=
  { label := "F&B / Retail (Non-Domestic)"
    keywords := ["f&b", "retail", "shop", "restaurant", "food and beverage",
      "commercial unit", "and"]
    gfa_rule := InclusionRule.full, gfa_multiplier := 1
    nofa_rule := InclusionRule.full, nofa_multiplier := 1
    nofa_note := "Non-domestic usable space — included in NOFA."
    domestic := false, non_domestic := true }

/-- Structural element / facade. -/
def rule_structural : RoomRule :=
  { label := "Structural Element / Facade"
    keywords := ["structural element", "structure element",
      "facade", "curtain wall", "cladding", "spandrel",
      "overhang", "fin", "architectural feature",
      "precasted facade", "precast facade"]
    gfa_rule := InclusionRule.excluded, gfa_multiplier := 0
    gfa_note := "Structural / facade element — excluded from GFA."
    nofa_rule := InclusionRule.excluded, nofa_multiplier := 0 }

/-- `ROOM_RULES`: the static rule table, in source order. -/
def ROOM_RULES : List RoomRule :=
  [rule_carpark, rule_plant_pnap, rule_plant_unlimited, rule_plant_nonmand,
   rule_hotel_pickup, rule_hotel_support,
   rule_balcony, rule_wider_corridor, rule_sky_garden, rule_podium_garden,
   rule_acoustic_fin, rule_wing_wall, rule_prefab_wall, rule_utility_platform,
   rule_noise_barrier,
   rule_caretaker, rule_recreational, rule_covered_landscape, rule_trellis,
   rule_lift_shaft, rule_chimney, rule_other_plant, rule_pipe_duct_mand,
   rule_pipe_duct_nonmand, rule_ef_plant, rule_high_headroom, rule_entrance_void,
   rule_duplex_void, rule_sunshade, rule_minor_projection, rule_other_projection,
   rule_refuge, rule_covered_under_projection, rule_ptt, rule_party_structure,
   rule_staircase, rule_public_passage, rule_setback, rule_bonus, rule_mic,
   rule_flat, rule_bedroom, rule_living, rule_kitchen, rule_study,
   rule_bathroom, rule_corridor, rule_lobby, rule_storage, rule_fnb,
   rule_structural]

/-! ### Lookup helpers (`_find_rule`, `_apply_overrides`, `classify_room`) -/

/-- `room_label.lower().strip()` from `_find_rule`. -/
def normLabel (s : String) : List Char := pyStrip (pyLower s.data)

/-- `kw in label_lower` — Python substring membership of a keyword. -/
def kwMatches (kw : String) (labelL : List Char) : Bool := hasSub labelL kw.data

/-- Inner loop of `_find_rule` over one rule's keywords, threading the
`(best_rule, best_length)` state; an update happens when the keyword is a
substring of the label and is strictly longer than the best so far. -/
def scanKws (labelL : List Char) (rule : RoomRule) :
    List String → Option RoomRule × ℤ → Option RoomRule × ℤ
  | [], st => st
  | kw :: rest, st =>
    scanKws labelL rule rest
      (if kwMatches kw labelL && decide ((kw.length : ℤ) > st.2) then
        (some rule, (kw.length : ℤ))
      else st)

/-- Outer loop of `_find_rule` over the rule list. -/
def scanRules (labelL : List Char) :
    List RoomRule → Option RoomRule × ℤ → Option RoomRule × ℤ
  | [], st => st
  | r :: rest, st => scanRules labelL rest (scanKws labelL r r.keywords st)

/-- `_find_rule`: case-insensitive, longest keyword match wins
(initial state `(None, -1)`). -/
def find_rule (room_label : String) : Option RoomRule :=
  (scanRules (normLabel room_label) ROOM_RULES (none, -1)).1

/-- `_apply_overrides`: `rule.overrides.get(building_type, {})`. -/
def apply_overrides (rule : RoomRule) (building_type : BuildingType) :
    RuleOverride :=
  ((rule.overrides.find? (fun p => p.1 = building_type)).map Prod.snd).getD {}

/-- `classify_room`: classify a room and return its GFA / NOFA contributions. -/
def classify_room (room_label : String) (area_m2 : ℚ)
    (building_type : BuildingType) : AreaClassification :=
  match find_rule room_label with
  | none =>
    { room_type := room_label
      area_m2 := area_m2
      building_type := building_type
      gfa_rule := InclusionRule.full
      gfa_multiplier := 1
      gfa_area_m2 := area_m2
      gfa_note := "⚠️ Unrecognised room type — defaulted to full GFA. Manual review required."
      nofa_rule := InclusionRule.excluded
      nofa_multiplier := 0
      nofa_area_m2 := 0
      nofa_note := "⚠️ Unrecognised — excluded from NOFA pending review." }
  | some rule =>
    let ov := apply_overrides rule building_type
    let gfa_rule := ov.gfa_rule.getD rule.gfa_rule
    let gfa_multiplier := ov.gfa_multiplier.getD rule.gfa_multiplier
    let gfa_note := ov.gfa_note.getD rule.gfa_note
    let nofa_rule := ov.nofa_rule.getD rule.nofa_rule
    let nofa_multiplier := ov.nofa_multiplier.getD rule.nofa_multiplier
    let nofa_note := ov.nofa_note.getD rule.nofa_note
    let is_conc := ov.is_concession.getD rule.is_concession
    { room_type := room_label
      area_m2 := area_m2
      building_type := building_type
      gfa_rule := gfa_rule
      gfa_multiplier := gfa_multiplier
      gfa_area_m2 := pyRound 4 (area_m2 * gfa_multiplier)
      gfa_note := gfa_note
      is_concession := is_conc
      item_no := rule.item_no
      concession_item := rule.concession_item
      pnap_ref := rule.pnap_ref
      subject_to_cap := rule.subject_to_cap
      requires_beam_plus := rule.requires_beam_plus
      requires_prereq := rule.requires_prereq
      domestic := rule.domestic
      non_domestic := rule.non_domestic
      nofa_rule := nofa_rule
      nofa_multiplier := nofa_multiplier
      nofa_area_m2 := pyRound 4 (area_m2 * nofa_multiplier)
      nofa_note := nofa_note }

/-! ## Embedding of `area_calculator.py` -/

/-- `RoomInput` dataclass. -/
structure RoomInput where
  label   : String
  area_m2 : ℚ
  floor   : String := "—"
  room_id : String := ""
deriving DecidableEq

/-- `RoomResult` dataclass. -/
structure RoomResult where
  input          : RoomInput
  classification : AreaClassification
deriving DecidableEq

/-- `ConcessionSummary` dataclass. -/
structure ConcessionSummary where
  item               : String
  description        : String
  total_area_m2      : ℚ
  effective_gfa_m2   : ℚ
  subject_to_cap     : Bool
  requires_beam_plus : Bool
  cap_warning        : Bool := false
deriving DecidableEq

/-- One value of the `concession_map` dict (pre-`ConcessionSummary`). -/
structure ConcEntry where
  item               : String
  description        : String
  total_area_m2      : ℚ
  effective_gfa_m2   : ℚ
  subject_to_cap     : Bool
  requires_beam_plus : Bool
deriving DecidableEq

/-- `BuildingReport` dataclass (numeric fields carry the same `round(·, n)`
applied at construction in the source). -/
structure BuildingReport where
  building_type    : BuildingType
  rooms            : List RoomResult
  total_polygon_m2 : ℚ
  total_gfa_m2     : ℚ
  total_nofa_m2    : ℚ
  concessions      : List ConcessionSummary
  capped_total_m2  : ℚ
  cap_limit_m2     : ℚ
  cap_exceeded     : Bool
  cap_utilisation_pct : ℚ
  nofa_over_gfa    : ℚ  -- the source field `nofa_gfa_ratio`
  warnings         : List String
deriving DecidableEq

/-- `AreaCalculator.CAP_RATE` (APP-151: 10% of GFA). -/
def CAP_RATE : ℚ := 0.10

/-- Classification pass of `calculate`: one `RoomResult` per input room. -/
def classifyAll (bt : BuildingType) (rooms : List RoomInput) : List RoomResult :=
  rooms.map (fun rm => ⟨rm, classify_room rm.label rm.area_m2 bt⟩)

/-- Per-room warning emitted by `calculate` when the classification note
carries the review flag. -/
def roomWarning (r : RoomResult) : Option String :=
  if hasSub r.classification.gfa_note.data ("⚠️".data) then
    some (("Room '") ++ r.input.label ++ ("' (floor ") ++
      r.input.floor ++ ("): ") ++ r.classification.gfa_note)
  else none

/-- All per-room warnings, in room order. -/
def roomWarnings (results : List RoomResult) : List String :=
  results.filterMap roomWarning

/-- `total_polygon`: raw sum of all polygon areas. -/
def totalPolygon (results : List RoomResult) : ℚ :=
  (results.map (fun r => r.input.area_m2)).sum

/-- `total_gfa`: sum of effective GFA. -/
def totalGfa (results : List RoomResult) : ℚ :=
  (results.map (fun r => r.classification.gfa_area_m2)).sum

/-- `total_nofa`: sum of effective NOFA. -/
def totalNofa (results : List RoomResult) : ℚ :=
  (results.map (fun r => r.classification.nofa_area_m2)).sum

/-- The `+=` step of the `concession_map` loop: add one contributing room's
raw area and effective GFA to an entry's totals. -/
def entryAdd (e : ConcEntry) (r : RoomResult) : ConcEntry :=
  { e with total_area_m2 := e.total_area_m2 + r.input.area_m2,
           effective_gfa_m2 := e.effective_gfa_m2 + r.classification.gfa_area_m2 }

/-- The freshly initialised `concession_map` entry for a key (totals zero,
description and flags from the room that created it). -/
def entryNew (k : String) (r : RoomResult) : ConcEntry :=
  { item := k, description := r.classification.gfa_note,
    total_area_m2 := 0, effective_gfa_m2 := 0,
    subject_to_cap := r.classification.subject_to_cap,
    requires_beam_plus := r.classification.requires_beam_plus }

/-- `key in concession_map` lookup. -/
def entryFor (acc : List ConcEntry) (k : String) : Option ConcEntry :=
  acc.find? (fun e => e.item = k)

/-- Loop body building `concession_map`: skip non-concessions and empty
concession ids; initialise the entry on first sight of a key; then add the
room's raw area and effective GFA to that key's totals. -/
def concUpd (acc : List ConcEntry) (r : RoomResult) : List ConcEntry :=
  if r.classification.is_concession = false ∨
      r.classification.concession_item = ("") then acc
  else
    (if (entryFor acc r.classification.concession_item).isSome then acc
     else acc ++ [entryNew r.classification.concession_item r]).map
      (fun e =>
        if e.item = r.classification.concession_item then entryAdd e r else e)

/-- `concession_map` built over all results (dict in first-insertion order). -/
def concFold (results : List RoomResult) : List ConcEntry :=
  results.foldl concUpd []

/-- `capped_total`: sum of `effective_gfa_m2` over cap-subject map values. -/
def cappedTotal (entries : List ConcEntry) : ℚ :=
  ((entries.filter (fun e => e.subject_to_cap)).map
    (fun e => e.effective_gfa_m2)).sum

/-- Cap-exceeded warning string (`f"..."` of the source, on the rational
model of float formatting). -/
def capExceededMsg (capped_total cap_limit : ℚ) : String :=
  ("APP-151 10% cap exceeded: capped concessions = ") ++
  fmtFixed 2 capped_total ++ (" m² vs limit ") ++ fmtFixed 2 cap_limit ++
  (" m². BD approval required before submission.")

/-- Approaching-cap warning string. -/
def approachingMsg (capped_total cap_limit : ℚ) : String :=
  ("Approaching APP-151 10% cap: ") ++
  fmtFixed 1 (capped_total / cap_limit * 100) ++ ("% utilised (") ++
  fmtFixed 2 capped_total ++ (" m² of ") ++ fmtFixed 2 cap_limit ++ (" m²).")

/-- `AreaCalculator.calculate`. -/
def calculate (bt : BuildingType) (rooms : List RoomInput) : BuildingReport :=
  let results := classifyAll bt rooms
  let total_polygon := totalPolygon results
  let total_gfa := totalGfa results
  let total_nofa := totalNofa results
  let concession_map := concFold results
  let cap_limit := total_gfa * CAP_RATE
  let capped_total := cappedTotal concession_map
  let cap_exceeded : Bool := decide (capped_total > cap_limit)
  let concession_list : List ConcessionSummary :=
    concession_map.map (fun v =>
      { item := v.item, description := v.description,
        total_area_m2 := v.total_area_m2,
        effective_gfa_m2 := v.effective_gfa_m2,
        subject_to_cap := v.subject_to_cap,
        requires_beam_plus := v.requires_beam_plus,
        cap_warning := v.subject_to_cap && cap_exceeded })
  let warnings :=
    roomWarnings results ++
      (if cap_exceeded then [capExceededMsg capped_total cap_limit]
       else if cap_limit > 0 ∧ capped_total / cap_limit ≥ 0.80 then
         [approachingMsg capped_total cap_limit]
       else [])
  let nofa_gfa_r : ℚ := if total_gfa > 0 then total_nofa / total_gfa else 0
  let cap_utilisation : ℚ :=
    if cap_limit > 0 then capped_total / cap_limit * 100 else 0
  { building_type := bt
    rooms := results
    total_polygon_m2 := pyRound 4 total_polygon
    total_gfa_m2 := pyRound 4 total_gfa
    total_nofa_m2 := pyRound 4 total_nofa
    concessions := concession_list
    capped_total_m2 := pyRound 4 capped_total
    cap_limit_m2 := pyRound 4 cap_limit
    cap_exceeded := cap_exceeded
    cap_utilisation_pct := pyRound 2 cap_utilisation
    nofa_over_gfa := pyRound 4 nofa_gfa_r
    warnings := warnings }

/-! ## Claim theorems on the classifier and the calculator -/

/-- Two-room schedule with `total_gfa = 1000` and capped concessions `101`. -/
def roomsCapHigh : List RoomInput :=
  [{ label := "Flat A", area_m2 := 899 }, { label := "Balcony", area_m2 := 202 }]

/-- Two-room schedule with `total_gfa = 1000` and capped concessions `85`. -/
def roomsCapNear : List RoomInput :=
  [{ label := "Flat A", area_m2 := 915 }, { label := "Balcony", area_m2 := 170 }]

/-- **C1**: `AreaCalculator.calculate` computes `cap_limit_m2` as
`total_gfa * 0.10`, `capped_total_m2` as the sum of effective GFA over the
cap-subject concession buckets, and `cap_exceeded = capped_total > cap_limit`;
in particular with `total_gfa_m2 = 1000` the cap limit is exactly `100`,
capped concessions of `101` give `cap_exceeded = true` plus a cap-exceeded
warning, and capped concessions of `85` give `cap_exceeded = false` plus an
approaching-cap warning. -/
theorem claim_C1_cap_arithmetic :
    (∀ (bt : BuildingType) (rooms : List RoomInput),
      (calculate bt rooms).cap_limit_m2 =
        pyRound 4 (totalGfa (classifyAll bt rooms) * CAP_RATE) ∧
      (calculate bt rooms).capped_total_m2 =
        pyRound 4 (cappedTotal (concFold (classifyAll bt rooms))) ∧
      ((calculate bt rooms).cap_exceeded = true ↔
        cappedTotal (concFold (classifyAll bt rooms)) >
          totalGfa (classifyAll bt rooms) * CAP_RATE)) ∧
    ((calculate BuildingType.residential roomsCapHigh).total_gfa_m2 = 1000 ∧
     (calculate BuildingType.residential roomsCapHigh).cap_limit_m2 = 100 ∧
     (calculate BuildingType.residential roomsCapHigh).capped_total_m2 = 101 ∧
     (calculate BuildingType.residential roomsCapHigh).cap_exceeded = true ∧
     (∃ w ∈ (calculate BuildingType.residential roomsCapHigh).warnings,
       strHasSub w ("cap exceeded") = true)) ∧
    ((calculate BuildingType.residential roomsCapNear).total_gfa_m2 = 1000 ∧
     (calculate BuildingType.residential roomsCapNear).capped_total_m2 = 85 ∧
     (calculate BuildingType.residential roomsCapNear).cap_exceeded = false ∧
     (∃ w ∈ (calculate BuildingType.residential roomsCapNear).warnings,
       strHasSub w ("Approaching") = true)) := by
  refine ⟨fun bt rooms => ⟨rfl, rfl, ?_⟩, ?_, ?_⟩
  · exact ⟨fun h => of_decide_eq_true h, fun h => decide_eq_true h⟩
  · with_unfolding_all decide
  · with_unfolding_all decide

/-- **C9**: when the total GFA is zero, `calculate` returns
`nofa_gfa_ratio = 0` instead of dividing; the division only happens when
`total_gfa` is strictly positive. -/
theorem claim_C9_zero_gfa_ratio_safe (bt : BuildingType)
    (rooms : List RoomInput)
    (h : totalGfa (classifyAll bt rooms) = 0) :
    (calculate bt rooms).nofa_over_gfa = 0 := by
  have h0 : pyRound 4 (0 : ℚ) = 0 := by with_unfolding_all decide
  show pyRound 4
    (if totalGfa (classifyAll bt rooms) > 0 then
      totalNofa (classifyAll bt rooms) / totalGfa (classifyAll bt rooms)
     else 0) = 0
  rw [h]
  simpa using h0

/-- Witness for C9 at a concrete schedule whose only room is GFA-exempt. -/
theorem claim_C9_zero_gfa_ratio_safe_witness :
    totalGfa (classifyAll BuildingType.residential
      [{ label := "Carpark", area_m2 := 5 }]) = 0 ∧
    (calculate BuildingType.residential
      [{ label := "Carpark", area_m2 := 5 }]).nofa_over_gfa = 0 :=
  ⟨by with_unfolding_all decide,
   claim_C9_zero_gfa_ratio_safe BuildingType.residential
     [{ label := "Carpark", area_m2 := 5 }]
     (by with_unfolding_all decide)⟩

/-- **C5**: every rule in the static table has both multipliers in `[0, 1]`
and an `excluded` policy forces multiplier `0`; a room matched to a rule gets
`gfa_area_m2 = round(area * gfa_multiplier, 4)` and likewise for NOFA. -/
theorem claim_C5_multiplier_bounds_and_rounding (label : String) (area : ℚ)
    (bt : BuildingType) (rule : RoomRule)
    (h : find_rule label = some rule) :
    (∀ r ∈ ROOM_RULES,
      0 ≤ r.gfa_multiplier ∧ r.gfa_multiplier ≤ 1 ∧
      0 ≤ r.nofa_multiplier ∧ r.nofa_multiplier ≤ 1 ∧
      (r.gfa_rule = InclusionRule.excluded → r.gfa_multiplier = 0) ∧
      (r.nofa_rule = InclusionRule.excluded → r.nofa_multiplier = 0)) ∧
    (classify_room label area bt).gfa_area_m2 =
      pyRound 4 (area * (classify_room label area bt).gfa_multiplier) ∧
    (classify_room label area bt).nofa_area_m2 =
      pyRound 4 (area * (classify_room label area bt).nofa_multiplier) := by
  refine ⟨by with_unfolding_all decide, ?_, ?_⟩ <;>
    simp only [classify_room, h]

/-- Witness for C5 at the balcony rule (`multiplier 0.5`). -/
theorem claim_C5_multiplier_bounds_and_rounding_witness :
    find_rule ("Balcony") = some rule_balcony ∧
    (classify_room ("Balcony") 4.5 BuildingType.residential).gfa_area_m2 =
      pyRound 4 (4.5 * (classify_room ("Balcony") 4.5
        BuildingType.residential).gfa_multiplier) :=
  ⟨by with_unfolding_all rfl,
   (claim_C5_multiplier_bounds_and_rounding ("Balcony") 4.5
     BuildingType.residential rule_balcony
     (by with_unfolding_all rfl)).2.1⟩

/-- **C4**: a label with no matching keyword never fails: it defaults to
full GFA (`multiplier 1`, `gfa_area = area`), excluded NOFA (`0`), carries a
review note, and that note surfaces in the report's warnings as a string
containing "review". -/
theorem claim_C4_unrecognised_label_fallback (label : String) (area : ℚ)
    (bt : BuildingType) (rooms : List RoomInput) (rm : RoomInput)
    (h : find_rule label = none) (hrm : rm ∈ rooms) (hlab : rm.label = label) :
    (classify_room label area bt).gfa_rule = InclusionRule.full ∧
    (classify_room label area bt).gfa_multiplier = 1 ∧
    (classify_room label area bt).gfa_area_m2 = area ∧
    (classify_room label area bt).nofa_rule = InclusionRule.excluded ∧
    (classify_room label area bt).nofa_area_m2 = 0 ∧
    strHasSub (classify_room label area bt).gfa_note ("review") = true ∧
    ∃ w ∈ (calculate bt rooms).warnings, strHasSub w ("review") = true := by
  refine ⟨by simp [classify_room, h], by simp [classify_room, h],
    by simp [classify_room, h], by simp [classify_room, h],
    by simp [classify_room, h], by simp [classify_room, h, strHasSub]; decide,
    ?_⟩
  have hfr : find_rule rm.label = none := by rw [hlab]; exact h
  refine ⟨("Room '") ++ rm.label ++ ("' (floor ") ++ rm.floor ++ ("): ") ++
    (classify_room rm.label rm.area_m2 bt).gfa_note, ?_, ?_⟩
  · apply List.mem_append_left
    refine List.mem_filterMap.mpr
      ⟨⟨rm, classify_room rm.label rm.area_m2 bt⟩, ?_, ?_⟩
    · exact List.mem_map_of_mem _ hrm
    · simp only [roomWarning, classify_room, hfr]
      rw [if_pos (by decide)]
  · show hasSub _ _ = true
    have hdata : (("Room '") ++ rm.label ++ ("' (floor ") ++ rm.floor ++
        ("): ") ++ (classify_room rm.label rm.area_m2 bt).gfa_note).data =
        (("Room '") ++ rm.label ++ ("' (floor ") ++ rm.floor ++
          ("): ")).data ++ (classify_room rm.label rm.area_m2 bt).gfa_note.data := by
      simp [String.data_append]
    rw [hdata]
    apply hasSub_append_right
    simp only [classify_room, hfr]
    decide

/-- Witness for C4: the spec's "Mystery Room" scenario. -/
theorem claim_C4_unrecognised_label_fallback_witness :
    find_rule ("Mystery Room") = none ∧
    ((classify_room ("Mystery Room") 10 BuildingType.residential).gfa_area_m2
        = 10 ∧
     (classify_room ("Mystery Room") 10 BuildingType.residential).nofa_area_m2
        = 0 ∧
     ∃ w ∈ (calculate BuildingType.residential
        [{ label := "Mystery Room", area_m2 := 10 }]).warnings,
       strHasSub w ("review") = true) :=
  ⟨by with_unfolding_all decide,
   (fun big =>
     ⟨big.2.2.1, big.2.2.2.2.1, big.2.2.2.2.2.2⟩)
   (claim_C4_unrecognised_label_fallback ("Mystery Room") 10
     BuildingType.residential [{ label := "Mystery Room", area_m2 := 10 }]
     { label := "Mystery Room", area_m2 := 10 }
     (by with_unfolding_all decide) (List.mem_singleton.mpr rfl) rfl)⟩

/-! ## C3 machinery: characterising the concession-map fold -/

/-- Concession-bucket key of a classification: the concession id, when the
classification is a concession with a non-empty id (the exact guard of the
`concession_map` loop). -/
def keyOfC (c : AreaClassification) : Option String :=
  if c.is_concession = true ∧ c.concession_item ≠ ("") then
    some c.concession_item
  else none

/-- Bucket key of a room result. -/
def keyOfR (r : RoomResult) : Option String := keyOfC r.classification

/-- Total raw area contributed to a key by a result list. -/
def sumAreaFor (rs : List RoomResult) (k : String) : ℚ :=
  ((rs.filter (fun r => keyOfR r = some k)).map (fun r => r.input.area_m2)).sum

/-- Total effective GFA contributed to a key by a result list. -/
def sumGfaFor (rs : List RoomResult) (k : String) : ℚ :=
  ((rs.filter (fun r => keyOfR r = some k)).map
    (fun r => r.classification.gfa_area_m2)).sum

/-- Declarative view of one bucket: present exactly when some result
carries the key; description and flags from the first such result; totals
as the filtered sums. -/
def viewSpec (rs : List RoomResult) (k : String) : Option ConcEntry :=
  match rs.filter (fun r => keyOfR r = some k) with
  | [] => none
  | r0 :: _ =>
    some { item := k, description := r0.classification.gfa_note,
           total_area_m2 := sumAreaFor rs k,
           effective_gfa_m2 := sumGfaFor rs k,
           subject_to_cap := r0.classification.subject_to_cap,
           requires_beam_plus := r0.classification.requires_beam_plus }

/-- One step of the concession-map loop, seen through `entryFor`. -/
theorem entryFor_concUpd (acc : List ConcEntry) (r : RoomResult) (k : String) :
    entryFor (concUpd acc r) k =
      if keyOfR r = some k then
        some (entryAdd ((entryFor acc k).getD (entryNew k r)) r)
      else entryFor acc k := by
  have hf : ∀ e : ConcEntry,
      ((if e.item = r.classification.concession_item then entryAdd e r else e)
        : ConcEntry).item = e.item := by
    intro e; split <;> rfl
  have hfind_map : ∀ (l : List ConcEntry) (k2 : String),
      entryFor (l.map (fun e =>
        if e.item = r.classification.concession_item then entryAdd e r
        else e)) k2
      = (entryFor l k2).map (fun e =>
        if e.item = r.classification.concession_item then entryAdd e r
        else e) := by
    have hp : ∀ k2 : String,
        ((fun e : ConcEntry => decide (e.item = k2)) ∘
          (fun e => if e.item = r.classification.concession_item then
            entryAdd e r else e)) =
        (fun e : ConcEntry => decide (e.item = k2)) := by
      intro k2
      funext e
      simp only [Function.comp_apply, hf e]
    intro l k2
    show List.find? _ _ = _
    rw [List.find?_map, hp k2]
    rfl
  by_cases hg : r.classification.is_concession = false ∨
      r.classification.concession_item = ("")
  · have hk : keyOfR r = none := by
      unfold keyOfR keyOfC
      rw [if_neg]
      rintro ⟨h1, h2⟩
      rcases hg with h | h
      · rw [h1] at h; exact absurd h (by simp)
      · exact h2 h
    rw [concUpd, if_pos hg, hk, if_neg (by simp)]
  · have hg2 : ¬ r.classification.is_concession = false ∧
        ¬ r.classification.concession_item = ("") := not_or.mp hg
    have hconc : r.classification.is_concession = true := by
      cases hb : r.classification.is_concession
      · exact absurd hb hg2.1
      · rfl
    have hk : keyOfR r = some r.classification.concession_item := by
      unfold keyOfR keyOfC
      rw [if_pos ⟨hconc, hg2.2⟩]
    rw [concUpd, if_neg hg]
    by_cases hkk : r.classification.concession_item = k
    · subst hkk
      rw [hk, if_pos rfl]
      cases hfind : entryFor acc r.classification.concession_item with
      | some e =>
        have he : e.item = r.classification.concession_item := by
          simpa using List.find?_some hfind
        rw [if_pos (show ((some e : Option ConcEntry)).isSome = true from rfl),
          hfind_map, hfind, Option.map_some', Option.getD_some, if_pos he]
      | none =>
        have hone : entryFor
            (acc ++ [entryNew r.classification.concession_item r])
            r.classification.concession_item =
            some (entryNew r.classification.concession_item r) := by
          show List.find? _ _ = _
          rw [List.find?_append,
            show List.find? (fun e : ConcEntry =>
              e.item = r.classification.concession_item) acc = none from hfind,
            List.find?_cons_of_pos _ (by simp [entryNew])]
          rfl
        rw [if_neg (show ¬ ((none : Option ConcEntry)).isSome = true by simp),
          hfind_map, hone, Option.map_some', Option.getD_none,
          if_pos (show (entryNew r.classification.concession_item r).item =
            r.classification.concession_item from rfl)]
    · rw [hk, if_neg (fun hcontra => hkk (Option.some.inj hcontra))]
      rw [hfind_map]
      have hAcc1 : entryFor
          (if (entryFor acc r.classification.concession_item).isSome then acc
           else acc ++ [entryNew r.classification.concession_item r]) k =
          entryFor acc k := by
        split
        · rfl
        · show List.find? _ _ = _
          rw [List.find?_append,
            show List.find? (fun e : ConcEntry => e.item = k)
              [entryNew r.classification.concession_item r] = none by
              rw [List.find?_cons_of_neg _ (by simp [entryNew, hkk])]; rfl]
          rw [show entryFor acc k =
            List.find? (fun e : ConcEntry => e.item = k) acc from rfl]
          cases List.find? (fun e : ConcEntry => e.item = k) acc <;> rfl
      rw [hAcc1]
      cases hfind : entryFor acc k with
      | some e =>
        have he : e.item = k := by simpa using List.find?_some hfind
        rw [Option.map_some',
          if_neg (by rw [he]; exact fun hcontra => hkk hcontra.symm)]
      | none => rfl

theorem viewSpec_cons_pos (r : RoomResult) (rest : List RoomResult)
    (k : String) (h : keyOfR r = some k) :
    viewSpec (r :: rest) k =
      some { item := k, description := r.classification.gfa_note,
             total_area_m2 := sumAreaFor (r :: rest) k,
             effective_gfa_m2 := sumGfaFor (r :: rest) k,
             subject_to_cap := r.classification.subject_to_cap,
             requires_beam_plus := r.classification.requires_beam_plus } := by
  unfold viewSpec
  rw [List.filter_cons_of_pos (by simp [h])]

theorem sumAreaFor_cons_pos (r : RoomResult) (rest : List RoomResult)
    (k : String) (h : keyOfR r = some k) :
    sumAreaFor (r :: rest) k = r.input.area_m2 + sumAreaFor rest k := by
  unfold sumAreaFor
  rw [List.filter_cons_of_pos (by simp [h]), List.map_cons, List.sum_cons]

theorem sumGfaFor_cons_pos (r : RoomResult) (rest : List RoomResult)
    (k : String) (h : keyOfR r = some k) :
    sumGfaFor (r :: rest) k =
      r.classification.gfa_area_m2 + sumGfaFor rest k := by
  unfold sumGfaFor
  rw [List.filter_cons_of_pos (by simp [h]), List.map_cons, List.sum_cons]

theorem sumAreaFor_cons_neg (r : RoomResult) (rest : List RoomResult)
    (k : String) (h : ¬ keyOfR r = some k) :
    sumAreaFor (r :: rest) k = sumAreaFor rest k := by
  unfold sumAreaFor
  rw [List.filter_cons_of_neg (by simp [h])]

theorem sumGfaFor_cons_neg (r : RoomResult) (rest : List RoomResult)
    (k : String) (h : ¬ keyOfR r = some k) :
    sumGfaFor (r :: rest) k = sumGfaFor rest k := by
  unfold sumGfaFor
  rw [List.filter_cons_of_neg (by simp [h])]

theorem viewSpec_cons_neg (r : RoomResult) (rest : List RoomResult)
    (k : String) (h : ¬ keyOfR r = some k) :
    viewSpec (r :: rest) k = viewSpec rest k := by
  unfold viewSpec
  rw [List.filter_cons_of_neg (by simp [h])]
  simp only [sumAreaFor_cons_neg r rest k h, sumGfaFor_cons_neg r rest k h]

/-- The concession-map fold, characterised key by key: an existing entry in
the accumulator gets the result list's contributions added; a fresh key is
exactly the declarative bucket view. -/
theorem entryFor_foldl (rs : List RoomResult) :
    ∀ (acc : List ConcEntry) (k : String),
      entryFor (rs.foldl concUpd acc) k =
        match entryFor acc k with
        | some e => some { e with
            total_area_m2 := e.total_area_m2 + sumAreaFor rs k,
            effective_gfa_m2 := e.effective_gfa_m2 + sumGfaFor rs k }
        | none => viewSpec rs k := by
  induction rs with
  | nil =>
    intro acc k
    cases hfind : entryFor acc k with
    | some e =>
      simp only [List.foldl_nil, hfind, sumAreaFor, sumGfaFor,
        List.filter_nil, List.map_nil, List.sum_nil, add_zero]
    | none =>
      simp only [List.foldl_nil, hfind, viewSpec, List.filter_nil]
  | cons r rest ih =>
    intro acc k
    rw [List.foldl_cons, ih (concUpd acc r) k]
    by_cases hkr : keyOfR r = some k
    · simp only [entryFor_concUpd, if_pos hkr]
      cases hfind : entryFor acc k with
      | some e =>
        simp only [Option.getD_some,
          sumAreaFor_cons_pos r rest k hkr, sumGfaFor_cons_pos r rest k hkr,
          entryAdd, add_assoc]
      | none =>
        simp only [Option.getD_none,
          viewSpec_cons_pos r rest k hkr,
          sumAreaFor_cons_pos r rest k hkr, sumGfaFor_cons_pos r rest k hkr,
          entryAdd, entryNew, zero_add, add_assoc]
    · simp only [entryFor_concUpd, if_neg hkr,
        sumAreaFor_cons_neg r rest k hkr, sumGfaFor_cons_neg r rest k hkr,
        viewSpec_cons_neg r rest k hkr]

/-- The concession map of a full run is exactly the declarative bucket
view, key by key. -/
theorem entryFor_concFold (rs : List RoomResult) (k : String) :
    entryFor (concFold rs) k = viewSpec rs k := by
  have h := entryFor_foldl rs [] k
  rw [concFold]
  rw [h]
  rfl

/-- Entry items are pairwise distinct in the concession map. -/
def itemsNodup (l : List ConcEntry) : Prop :=
  l.Pairwise (fun a b => a.item ≠ b.item)

theorem itemsNodup_concUpd (acc : List ConcEntry) (r : RoomResult)
    (h : itemsNodup acc) : itemsNodup (concUpd acc r) := by
  unfold concUpd
  split
  · exact h
  · apply List.Pairwise.map
    · intro a b hab
      have ha : ((if a.item = r.classification.concession_item then
          entryAdd a r else a) : ConcEntry).item = a.item := by
        split <;> rfl
      have hb : ((if b.item = r.classification.concession_item then
          entryAdd b r else b) : ConcEntry).item = b.item := by
        split <;> rfl
      rw [ha, hb]; exact hab
    · split
      · exact h
      · rename_i hnone
        apply List.pairwise_append.mpr
        refine ⟨h, List.pairwise_singleton _ _, ?_⟩
        intro a ha b hb
        have hbitem : b = entryNew r.classification.concession_item r := by
          simpa using hb
        rw [hbitem]
        show a.item ≠ r.classification.concession_item
        intro hcontra
        have : entryFor acc r.classification.concession_item ≠ none := by
          intro hnone2
          have := List.find?_eq_none.mp hnone2 a ha
          simp [hcontra] at this
        cases hfind : entryFor acc r.classification.concession_item with
        | some e => rw [hfind] at hnone; simp at hnone
        | none => exact this hfind

theorem itemsNodup_foldl (rs : List RoomResult) :
    ∀ acc : List ConcEntry, itemsNodup acc →
      itemsNodup (rs.foldl concUpd acc) := by
  induction rs with
  | nil => intro acc h; exact h
  | cons r rest ih =>
    intro acc h
    rw [List.foldl_cons]
    exact ih _ (itemsNodup_concUpd acc r h)

theorem itemsNodup_concFold (rs : List RoomResult) :
    itemsNodup (concFold rs) :=
  itemsNodup_foldl rs [] (List.Pairwise.nil)

theorem entryFor_cons_self (e : ConcEntry) (t : List ConcEntry) :
    entryFor (e :: t) e.item = some e := by
  show List.find? _ _ = _
  rw [List.find?_cons_of_pos _ (by simp)]

theorem entryFor_cons_neg (a : ConcEntry) (t : List ConcEntry) (k : String)
    (h : ¬ a.item = k) : entryFor (a :: t) k = entryFor t k := by
  show List.find? _ _ = _
  rw [List.find?_cons_of_neg _ (by simpa using h)]
  rfl

theorem find?_erase_of_neg (e : ConcEntry) (p : ConcEntry → Bool)
    (hp : p e = false) :
    ∀ l : List ConcEntry, (l.erase e).find? p = l.find? p := by
  intro l
  induction l with
  | nil => rfl
  | cons a t ih =>
    by_cases hae : a = e
    · subst hae
      rw [List.erase_cons_head, List.find?_cons_of_neg _ (by simp [hp])]
    · rw [List.erase_cons_tail (by simp [hae])]
      by_cases hpa : p a = true
      · rw [List.find?_cons_of_pos _ hpa, List.find?_cons_of_pos _ hpa]
      · rw [List.find?_cons_of_neg _ hpa, List.find?_cons_of_neg _ hpa, ih]

theorem entryFor_erase_self (e : ConcEntry) :
    ∀ l : List ConcEntry, itemsNodup l → e ∈ l →
      entryFor (l.erase e) e.item = none := by
  intro l
  induction l with
  | nil => intro _ hmem; exact absurd hmem (List.not_mem_nil e)
  | cons a t ih =>
    intro hnd hmem
    rcases List.pairwise_cons.mp hnd with ⟨hhead, htail⟩
    by_cases hae : a = e
    · subst hae
      rw [List.erase_cons_head]
      exact List.find?_eq_none.mpr
        (fun b hb => by
          simp only [decide_eq_true_eq]
          exact fun hc => (hhead b hb) hc.symm)
    · have het : e ∈ t := by
        rcases List.mem_cons.mp hmem with h | h
        · exact absurd h.symm hae
        · exact h
      rw [List.erase_cons_tail (by simp [hae]),
        entryFor_cons_neg a _ _ (fun hc => (hhead e het) hc), ih htail het]

/-- Two concession maps with pairwise-distinct keys and identical lookups
are permutations of each other. -/
theorem perm_of_entryFor_eq :
    ∀ l1 l2 : List ConcEntry, itemsNodup l1 → itemsNodup l2 →
      (∀ k, entryFor l1 k = entryFor l2 k) → l1.Perm l2 := by
  intro l1
  induction l1 with
  | nil =>
    intro l2 _ _ h
    cases l2 with
    | nil => exact List.Perm.refl []
    | cons e t =>
      have := h e.item
      rw [entryFor_cons_self] at this
      exact absurd this.symm (by simp [entryFor])
  | cons e t ih =>
    intro l2 h1 h2 h
    have he2 : e ∈ l2 := by
      apply List.mem_of_find?_eq_some (p := fun x => x.item = e.item)
      rw [show l2.find? (fun x => x.item = e.item) = entryFor l2 e.item
        from rfl, ← h e.item, entryFor_cons_self]
    have hperm2 : l2.Perm (e :: l2.erase e) := List.perm_cons_erase he2
    rcases List.pairwise_cons.mp h1 with ⟨hhead, htail⟩
    refine List.Perm.trans (List.Perm.cons e (ih (l2.erase e) htail ?_ ?_))
      hperm2.symm
    · exact List.Pairwise.sublist (List.erase_sublist e l2) h2
    · intro k
      by_cases hk : k = e.item
      · subst hk
        rw [entryFor_erase_self e l2 h2 he2]
        exact List.find?_eq_none.mpr
          (fun b hb => by
            simp only [decide_eq_true_eq]
            exact fun hc => (hhead b hb) hc.symm)
      · have hek : ¬ e.item = k := fun hc => hk hc.symm
        rw [← entryFor_cons_neg e t k hek, h k]
        exact (find?_erase_of_neg e _
          (by simp only [decide_eq_false_iff_not]; exact hek) l2).symm

/-! ## C3: coherence of bucket flags via the rule table -/

theorem scanKws_fst_mem (labelL : List Char) (rule : RoomRule) :
    ∀ (kws : List String) (st : Option RoomRule × ℤ) (r : RoomRule),
      (scanKws labelL rule kws st).1 = some r → st.1 = some r ∨ r = rule := by
  intro kws
  induction kws with
  | nil => intro st r h; exact Or.inl h
  | cons kw rest ih =>
    intro st r h
    rw [scanKws] at h
    rcases ih _ r h with h2 | h2
    · by_cases hc : (kwMatches kw labelL &&
          decide ((kw.length : ℤ) > st.2)) = true
      · rw [if_pos hc] at h2
        exact Or.inr (Option.some.inj h2).symm
      · rw [if_neg hc] at h2
        exact Or.inl h2
    · exact Or.inr h2

theorem scanRules_fst_mem (labelL : List Char) :
    ∀ (rules : List RoomRule) (st : Option RoomRule × ℤ) (r : RoomRule),
      (scanRules labelL rules st).1 = some r → st.1 = some r ∨ r ∈ rules := by
  intro rules
  induction rules with
  | nil => intro st r h; exact Or.inl h
  | cons r2 rest ih =>
    intro st r h
    rw [scanRules] at h
    rcases ih _ r h with h2 | h2
    · rcases scanKws_fst_mem labelL r2 r2.keywords st r h2 with h3 | h3
      · exact Or.inl h3
      · exact Or.inr (h3 ▸ List.mem_cons_self _ _)
    · exact Or.inr (List.mem_cons_of_mem _ h2)

/-- A matched rule always comes from the table. -/
theorem find_rule_mem (l : String) (r : RoomRule)
    (h : find_rule l = some r) : r ∈ ROOM_RULES := by
  rcases scanRules_fst_mem (normLabel l) ROOM_RULES (none, -1) r h with h2 | h2
  · exact absurd h2 (by simp)
  · exact h2

/-- In the static table, a non-empty concession id determines the cap flag,
the BEAM-plus flag, the GFA note, and the overrides dictionary. -/
theorem rules_key_coherent :
    ∀ r1 ∈ ROOM_RULES, ∀ r2 ∈ ROOM_RULES,
      r1.concession_item ≠ ("") → r1.concession_item = r2.concession_item →
      (r1.subject_to_cap = r2.subject_to_cap ∧
       r1.requires_beam_plus = r2.requires_beam_plus ∧
       r1.gfa_note = r2.gfa_note ∧
       r1.overrides = r2.overrides) := by
  with_unfolding_all decide

/-- A classification with a concession key comes from a unique table rule,
and its bucket-relevant fields are those of that rule. -/
theorem classify_key_fields (lbl : String) (a : ℚ) (bt : BuildingType)
    (k : String) (h : keyOfC (classify_room lbl a bt) = some k) :
    ∃ ru ∈ ROOM_RULES, find_rule lbl = some ru ∧
      k = ru.concession_item ∧ k ≠ ("") ∧
      (classify_room lbl a bt).subject_to_cap = ru.subject_to_cap ∧
      (classify_room lbl a bt).requires_beam_plus = ru.requires_beam_plus ∧
      (classify_room lbl a bt).gfa_note =
        ((apply_overrides ru bt).gfa_note).getD ru.gfa_note := by
  cases hfr : find_rule lbl with
  | none =>
    exfalso
    have hnone : keyOfC (classify_room lbl a bt) = none := by
      simp [classify_room, hfr, keyOfC]
    rw [hnone] at h
    exact Option.noConfusion h
  | some ru =>
    have hk : k = ru.concession_item ∧ ru.concession_item ≠ ("") := by
      simp only [classify_room, hfr, keyOfC] at h
      by_cases hcond : ((ru.overrides.find? (fun p => p.1 = bt)).map
          Prod.snd |>.getD {}).is_concession.getD ru.is_concession = true ∧
          ru.concession_item ≠ ("")
      · rw [if_pos (by exact hcond)] at h
        exact ⟨(Option.some.inj h).symm, hcond.2⟩
      · rw [if_neg (by exact hcond)] at h
        exact absurd h (by simp)
    refine ⟨ru, find_rule_mem lbl ru hfr, rfl, hk.1, hk.1 ▸ hk.2, ?_, ?_, ?_⟩ <;>
      simp [classify_room, hfr]

/-- Within one `calculate` call, two classified rooms sharing a concession
key agree on the bucket's flags and description. -/
theorem classify_same_key (l1 l2 : String) (a1 a2 : ℚ) (bt : BuildingType)
    (k : String)
    (h1 : keyOfC (classify_room l1 a1 bt) = some k)
    (h2 : keyOfC (classify_room l2 a2 bt) = some k) :
    (classify_room l1 a1 bt).subject_to_cap =
      (classify_room l2 a2 bt).subject_to_cap ∧
    (classify_room l1 a1 bt).requires_beam_plus =
      (classify_room l2 a2 bt).requires_beam_plus ∧
    (classify_room l1 a1 bt).gfa_note = (classify_room l2 a2 bt).gfa_note := by
  obtain ⟨ru1, hm1, _, hk1, hne1, hc1, hb1, hn1⟩ :=
    classify_key_fields l1 a1 bt k h1
  obtain ⟨ru2, hm2, _, hk2, _, hc2, hb2, hn2⟩ :=
    classify_key_fields l2 a2 bt k h2
  have hco := rules_key_coherent ru1 hm1 ru2 hm2 (hk1 ▸ hne1)
    (hk1 ▸ hk2 ▸ rfl)
  refine ⟨by rw [hc1, hc2, hco.1], by rw [hb1, hb2, hco.2.1], ?_⟩
  rw [hn1, hn2, hco.2.2.1]
  unfold apply_overrides
  rw [hco.2.2.2]

theorem viewSpec_eq_none_of_filter_nil (rs : List RoomResult) (k : String)
    (h : rs.filter (fun r => keyOfR r = some k) = []) :
    viewSpec rs k = none := by
  unfold viewSpec
  rw [h]

theorem viewSpec_eq_of_filter_cons (rs : List RoomResult) (k : String)
    (r0 : RoomResult) (rest0 : List RoomResult)
    (h : rs.filter (fun r => keyOfR r = some k) = r0 :: rest0) :
    viewSpec rs k =
      some { item := k, description := r0.classification.gfa_note,
             total_area_m2 := sumAreaFor rs k,
             effective_gfa_m2 := sumGfaFor rs k,
             subject_to_cap := r0.classification.subject_to_cap,
             requires_beam_plus := r0.classification.requires_beam_plus } := by
  unfold viewSpec
  rw [h]

/-- The declarative bucket view is invariant under permutation of the room
list (flags and description are determined by the key, totals are sums). -/
theorem viewSpec_perm (bt : BuildingType) (rooms rooms2 : List RoomInput)
    (hp : rooms.Perm rooms2) (k : String) :
    viewSpec (classifyAll bt rooms) k = viewSpec (classifyAll bt rooms2) k := by
  have hrs : (classifyAll bt rooms).Perm (classifyAll bt rooms2) := hp.map _
  have hfilter : ((classifyAll bt rooms).filter
      (fun r => keyOfR r = some k)).Perm
      ((classifyAll bt rooms2).filter (fun r => keyOfR r = some k)) :=
    hrs.filter _
  have hsumA : sumAreaFor (classifyAll bt rooms) k =
      sumAreaFor (classifyAll bt rooms2) k := (hfilter.map _).sum_eq
  have hsumG : sumGfaFor (classifyAll bt rooms) k =
      sumGfaFor (classifyAll bt rooms2) k := (hfilter.map _).sum_eq
  cases hc : (classifyAll bt rooms).filter (fun r => keyOfR r = some k) with
  | nil =>
    rw [viewSpec_eq_none_of_filter_nil _ _ hc,
      viewSpec_eq_none_of_filter_nil _ _ (by
        rw [hc] at hfilter
        exact hfilter.symm.eq_nil)]
  | cons r0 rest0 =>
    cases hc2 : (classifyAll bt rooms2).filter (fun r => keyOfR r = some k) with
    | nil =>
      rw [hc, hc2] at hfilter
      exact absurd hfilter.eq_nil (by simp)
    | cons r02 rest02 =>
      have h0 : r0 ∈ (classifyAll bt rooms).filter
          (fun r => keyOfR r = some k) := by
        rw [hc]; exact List.mem_cons_self _ _
      have h02 : r02 ∈ (classifyAll bt rooms2).filter
          (fun r => keyOfR r = some k) := by
        rw [hc2]; exact List.mem_cons_self _ _
      obtain ⟨hmem0, hp0⟩ := List.mem_filter.mp h0
      obtain ⟨hmem02, hp02⟩ := List.mem_filter.mp h02
      obtain ⟨rm0, _, he0⟩ := List.mem_map.mp hmem0
      obtain ⟨rm02, _, he02⟩ := List.mem_map.mp hmem02
      have hkc0 : keyOfC (classify_room rm0.label rm0.area_m2 bt) = some k := by
        have hx : keyOfR r0 = some k := of_decide_eq_true hp0
        rw [← he0] at hx
        exact hx
      have hkc02 : keyOfC (classify_room rm02.label rm02.area_m2 bt) =
          some k := by
        have hx : keyOfR r02 = some k := of_decide_eq_true hp02
        rw [← he02] at hx
        exact hx
      have hsame := classify_same_key rm0.label rm02.label rm0.area_m2
        rm02.area_m2 bt k hkc0 hkc02
      have hcap : r0.classification.subject_to_cap =
          r02.classification.subject_to_cap := by
        rw [← he0, ← he02]; exact hsame.1
      have hbeam : r0.classification.requires_beam_plus =
          r02.classification.requires_beam_plus := by
        rw [← he0, ← he02]; exact hsame.2.1
      have hnote : r0.classification.gfa_note =
          r02.classification.gfa_note := by
        rw [← he0, ← he02]; exact hsame.2.2
      rw [viewSpec_eq_of_filter_cons _ _ _ _ hc,
        viewSpec_eq_of_filter_cons _ _ _ _ hc2,
        hsumA, hsumG, hcap, hbeam, hnote]

/-- **C3**: `calculate` is order-independent: permuting the input room list
leaves every total, the cap limit, the capped total, the cap decision, and
the concession-bucket list (as a multiset, keyed by concession id)
unchanged. -/
theorem claim_C3_order_independence (bt : BuildingType)
    (rooms rooms2 : List RoomInput) (hperm : rooms.Perm rooms2) :
    (calculate bt rooms).total_polygon_m2 =
      (calculate bt rooms2).total_polygon_m2 ∧
    (calculate bt rooms).total_gfa_m2 = (calculate bt rooms2).total_gfa_m2 ∧
    (calculate bt rooms).total_nofa_m2 = (calculate bt rooms2).total_nofa_m2 ∧
    (calculate bt rooms).cap_limit_m2 = (calculate bt rooms2).cap_limit_m2 ∧
    (calculate bt rooms).capped_total_m2 =
      (calculate bt rooms2).capped_total_m2 ∧
    (calculate bt rooms).cap_exceeded = (calculate bt rooms2).cap_exceeded ∧
    ((calculate bt rooms).concessions).Perm
      ((calculate bt rooms2).concessions) := by
  have hrs : (classifyAll bt rooms).Perm (classifyAll bt rooms2) := hperm.map _
  have hpoly : totalPolygon (classifyAll bt rooms) =
      totalPolygon (classifyAll bt rooms2) := (hrs.map _).sum_eq
  have hgfa : totalGfa (classifyAll bt rooms) =
      totalGfa (classifyAll bt rooms2) := (hrs.map _).sum_eq
  have hnofa : totalNofa (classifyAll bt rooms) =
      totalNofa (classifyAll bt rooms2) := (hrs.map _).sum_eq
  have hcf : (concFold (classifyAll bt rooms)).Perm
      (concFold (classifyAll bt rooms2)) :=
    perm_of_entryFor_eq _ _ (itemsNodup_concFold _) (itemsNodup_concFold _)
      (fun k => by
        rw [entryFor_concFold, entryFor_concFold]
        exact viewSpec_perm bt rooms rooms2 hperm k)
  have hcapped : cappedTotal (concFold (classifyAll bt rooms)) =
      cappedTotal (concFold (classifyAll bt rooms2)) :=
    ((hcf.filter _).map _).sum_eq
  have hceq : (calculate bt rooms).cap_exceeded =
      (calculate bt rooms2).cap_exceeded := by
    show decide _ = decide _
    rw [hcapped, hgfa]
  refine ⟨?_, ?_, ?_, ?_, ?_, hceq, ?_⟩
  · show pyRound 4 (totalPolygon (classifyAll bt rooms)) = _
    rw [hpoly]; rfl
  · show pyRound 4 (totalGfa (classifyAll bt rooms)) = _
    rw [hgfa]; rfl
  · show pyRound 4 (totalNofa (classifyAll bt rooms)) = _
    rw [hnofa]; rfl
  · show pyRound 4 (totalGfa (classifyAll bt rooms) * CAP_RATE) = _
    rw [hgfa]; rfl
  · show pyRound 4 (cappedTotal (concFold (classifyAll bt rooms))) = _
    rw [hcapped]; rfl
  · show ((concFold (classifyAll bt rooms)).map (fun v =>
      ({ item := v.item, description := v.description,
         total_area_m2 := v.total_area_m2,
         effective_gfa_m2 := v.effective_gfa_m2,
         subject_to_cap := v.subject_to_cap,
         requires_beam_plus := v.requires_beam_plus,
         cap_warning := v.subject_to_cap && (calculate bt rooms).cap_exceeded }
        : ConcessionSummary))).Perm _
    rw [hceq]
    exact hcf.map _

/-- Witness for C3 at a concrete two-room swap. -/
theorem claim_C3_order_independence_witness :
    ((calculate BuildingType.residential
        [{ label := "Flat A", area_m2 := 899 },
         { label := "Balcony", area_m2 := 202 }]).cap_exceeded =
      (calculate BuildingType.residential
        [{ label := "Balcony", area_m2 := 202 },
         { label := "Flat A", area_m2 := 899 }]).cap_exceeded) ∧
    ((calculate BuildingType.residential
        [{ label := "Flat A", area_m2 := 899 },
         { label := "Balcony", area_m2 := 202 }]).concessions).Perm
      ((calculate BuildingType.residential
        [{ label := "Balcony", area_m2 := 202 },
         { label := "Flat A", area_m2 := 899 }]).concessions) :=
  ⟨(claim_C3_order_independence BuildingType.residential
      [{ label := "Flat A", area_m2 := 899 },
       { label := "Balcony", area_m2 := 202 }]
      [{ label := "Balcony", area_m2 := 202 },
       { label := "Flat A", area_m2 := 899 }]
      (List.Perm.swap _ _ _)).2.2.2.2.2.1,
   (claim_C3_order_independence BuildingType.residential
      [{ label := "Flat A", area_m2 := 899 },
       { label := "Balcony", area_m2 := 202 }]
      [{ label := "Balcony", area_m2 := 202 },
       { label := "Flat A", area_m2 := 899 }]
      (List.Perm.swap _ _ _)).2.2.2.2.2.2⟩

/-! ## C2: longest-match-wins analysis of `_find_rule` -/

/-- Maximum matching keyword length of one rule against a (normalised)
label; `-1` when no keyword matches — the same sentinel `_find_rule`
initialises `best_length` with. -/
def mml (labelL : List Char) (kws : List String) : ℤ :=
  kws.foldr
    (fun kw m => if kwMatches kw labelL then max (kw.length : ℤ) m else m)
    (-1)

theorem mml_ge_neg_one (labelL : List Char) (kws : List String) :
    -1 ≤ mml labelL kws := by
  induction kws with
  | nil => simp [mml]
  | cons kw rest ih =>
    simp only [mml, List.foldr] at ih ⊢
    split
    · exact le_trans ih (le_max_right _ _)
    · exact ih

/-- Evaluation of the inner keyword scan: the running best length becomes
the max of the incoming best and the rule's best matching keyword, and the
rule is recorded exactly when it strictly improves. -/
theorem scanKws_eval (labelL : List Char) (rule : RoomRule) :
    ∀ (kws : List String) (st : Option RoomRule × ℤ), -1 ≤ st.2 →
      scanKws labelL rule kws st =
        (if st.2 < mml labelL kws then some rule else st.1,
         max st.2 (mml labelL kws)) := by
  intro kws
  induction kws with
  | nil =>
    intro st hst
    simp only [scanKws, mml, List.foldr]
    rw [if_neg (by omega), max_eq_left (by omega)]
  | cons kw rest ih =>
    intro st hst
    have hlen : (0 : ℤ) ≤ (kw.length : ℤ) := Int.natCast_nonneg _
    have hrest := mml_ge_neg_one labelL rest
    simp only [scanKws]
    by_cases hm : kwMatches kw labelL
    · have hmml : mml labelL (kw :: rest) =
          max (kw.length : ℤ) (mml labelL rest) := by
        simp [mml, List.foldr, hm]
      by_cases hgt : st.2 < (kw.length : ℤ)
      · rw [if_pos (by simp only [hm, Bool.true_and, decide_eq_true_eq]; omega)]
        rw [ih (some rule, (kw.length : ℤ))
          (by show (-1 : ℤ) ≤ (kw.length : ℤ); omega)]
        rw [hmml]
        simp only [Prod.mk.injEq, max_def]
        constructor <;> split_ifs <;> first | rfl | omega
      · rw [if_neg (by simp only [hm, Bool.true_and, Bool.and_eq_true,
          decide_eq_true_eq]; omega)]
        rw [ih st hst, hmml]
        simp only [Prod.mk.injEq, max_def]
        constructor <;> split_ifs <;> first | rfl | omega
    · have hmml : mml labelL (kw :: rest) = mml labelL rest := by
        simp [mml, List.foldr, hm]
      rw [if_neg (by simp [hm])]
      rw [ih st hst, hmml]

/-- Once the scan state holds the champion rule at length `L` and every
remaining rule's best match is below `L` (or is the champion itself), the
state never changes. -/
theorem scanRules_hold (labelL : List Char) (r : RoomRule) (L : ℤ)
    (hL : mml labelL r.keywords = L) :
    ∀ rules : List RoomRule,
      (∀ r2 ∈ rules, r2 = r ∨ mml labelL r2.keywords < L) →
      scanRules labelL rules (some r, L) = (some r, L) := by
  intro rules
  induction rules with
  | nil => intro _; rfl
  | cons r2 rest ih =>
    intro hall
    have hLge : -1 ≤ L := hL ▸ mml_ge_neg_one labelL r.keywords
    simp only [scanRules]
    rw [scanKws_eval labelL r2 r2.keywords (some r, L)
      (by show (-1 : ℤ) ≤ L; omega)]
    have hr2 : mml labelL r2.keywords ≤ L := by
      rcases hall r2 (List.mem_cons_self _ _) with h | h
      · rw [h, hL]
      · omega
    rw [if_neg (by show ¬ (L < mml labelL r2.keywords); omega),
      max_eq_left (by show mml labelL r2.keywords ≤ L; omega)]
    exact ih (fun r3 hr3 => hall r3 (List.mem_cons_of_mem _ hr3))

/-- Main lemma: if `r`'s best matching keyword length `L` strictly
dominates every other rule's best matching keyword, the scan ends on
`(some r, L)` whatever the incoming state below `L` is. -/
theorem scanRules_wins (labelL : List Char) (r : RoomRule) (L : ℤ)
    (hL : mml labelL r.keywords = L) :
    ∀ (rules : List RoomRule) (st : Option RoomRule × ℤ),
      r ∈ rules →
      (∀ r2 ∈ rules, r2 = r ∨ mml labelL r2.keywords < L) →
      -1 ≤ st.2 → st.2 < L →
      scanRules labelL rules st = (some r, L) := by
  intro rules
  induction rules with
  | nil => intro st h; exact absurd h (List.not_mem_nil r)
  | cons r2 rest ih =>
    intro st hmem hall hst hstL
    simp only [scanRules]
    rw [scanKws_eval labelL r2 r2.keywords st hst]
    by_cases h2 : r2 = r
    · subst h2
      rw [if_pos (by rw [hL]; omega), max_eq_right (by rw [hL]; omega), hL]
      exact scanRules_hold labelL r2 L hL rest
        (fun r3 hr3 => hall r3 (List.mem_cons_of_mem _ hr3))
    · rcases hall r2 (List.mem_cons_self _ _) with h | hlt
      · exact absurd h h2
      · have hmem2 : r ∈ rest := by
          rcases List.mem_cons.mp hmem with h | h
          · exact absurd h.symm h2
          · exact h
        have hr2ge := mml_ge_neg_one labelL r2.keywords
        exact ih (if st.2 < mml labelL r2.keywords then some r2 else st.1,
            max st.2 (mml labelL r2.keywords)) hmem2
          (fun r3 hr3 => hall r3 (List.mem_cons_of_mem _ hr3))
          (by show (-1 : ℤ) ≤ max st.2 (mml labelL r2.keywords)
              rcases le_total st.2 (mml labelL r2.keywords) with h | h
              · rw [max_eq_right h]; omega
              · rw [max_eq_left h]; omega)
          (by show max st.2 (mml labelL r2.keywords) < L
              rcases le_total st.2 (mml labelL r2.keywords) with h | h
              · rw [max_eq_right h]; omega
              · rw [max_eq_left h]; omega)

/-- **C2**: `_find_rule` performs a case-insensitive substring match of the
label against every rule's keywords, and the rule owning the strictly
longest matching keyword wins, independent of rule order and of how many
keywords of each rule match (stated via `mml`, the per-rule best matching
keyword length over the lower-cased, stripped label). -/
theorem claim_C2_longest_match_wins (label : String) (r : RoomRule) (L : ℤ)
    (hr : r ∈ ROOM_RULES)
    (hL : mml (normLabel label) r.keywords = L)
    (hpos : 0 ≤ L)
    (hmax : ∀ r2 ∈ ROOM_RULES, r2 = r ∨ mml (normLabel label) r2.keywords < L) :
    find_rule label = some r ∧
    ∀ rules : List RoomRule, rules.Perm ROOM_RULES →
      (scanRules (normLabel label) rules (none, (-1 : ℤ))).1 = some r := by
  constructor
  · show (scanRules (normLabel label) ROOM_RULES (none, (-1 : ℤ))).1 = some r
    rw [scanRules_wins (normLabel label) r L hL ROOM_RULES (none, -1) hr hmax
      (by norm_num) (by show (-1 : ℤ) < L; omega)]
  · intro rules hperm
    rw [scanRules_wins (normLabel label) r L hL rules (none, -1)
      (hperm.mem_iff.mpr hr)
      (fun r2 hr2 => hmax r2 (hperm.mem_iff.mp hr2))
      (by norm_num) (by show (-1 : ℤ) < L; omega)]

/-- Witness for C2: "Curtain Wall And" matches the 3-character keyword
"and" of the F&B rule and the 12-character keyword "curtain wall" of the
structural rule; the structural rule wins. -/
theorem claim_C2_longest_match_wins_witness :
    kwMatches ("and") (normLabel ("Curtain Wall And")) = true ∧
    ("and").length = 3 ∧
    ("and") ∈ rule_fnb.keywords ∧
    kwMatches ("curtain wall") (normLabel ("Curtain Wall And")) = true ∧
    ("curtain wall").length = 12 ∧
    ("curtain wall") ∈ rule_structural.keywords ∧
    find_rule ("Curtain Wall And") = some rule_structural :=
  ⟨by with_unfolding_all decide, by decide, by decide,
   by with_unfolding_all decide, by decide, by decide,
   (claim_C2_longest_match_wins ("Curtain Wall And") rule_structural 12
     (by simp [ROOM_RULES])
     (by with_unfolding_all decide)
     (by decide)
     (by
       intro r2 h2
       simp only [ROOM_RULES, List.mem_cons, List.not_mem_nil, or_false] at h2
       rcases h2 with h|h|h|h|h|h|h|h|h|h|h|h|h|h|h|h|h|h|h|h|h|h|h|h|h|
         h|h|h|h|h|h|h|h|h|h|h|h|h|h|h|h|h|h|h|h|h|h|h|h|h|h <;>
         subst h
       · right; with_unfolding_all decide
       · right; with_unfolding_all decide
       · right; with_unfolding_all decide
       · right; with_unfolding_all decide
       · right; with_unfolding_all decide
       · right; with_unfolding_all decide
       · right; with_unfolding_all decide
       · right; with_unfolding_all decide
       · right; with_unfolding_all decide
       · right; with_unfolding_all decide
       · right; with_unfolding_all decide
       · right; with_unfolding_all decide
       · right; with_unfolding_all decide
       · right; with_unfolding_all decide
       · right; with_unfolding_all decide
       · right; with_unfolding_all decide
       · right; with_unfolding_all decide
       · right; with_unfolding_all decide
       · right; with_unfolding_all decide
       · right; with_unfolding_all decide
       · right; with_unfolding_all decide
       · right; with_unfolding_all decide
       · right; with_unfolding_all decide
       · right; with_unfolding_all decide
       · right; with_unfolding_all decide
       · right; with_unfolding_all decide
       · right; with_unfolding_all decide
       · right; with_unfolding_all decide
       · right; with_unfolding_all decide
       · right; with_unfolding_all decide
       · right; with_unfolding_all decide
       · right; with_unfolding_all decide
       · right; with_unfolding_all decide
       · right; with_unfolding_all decide
       · right; with_unfolding_all decide
       · right; with_unfolding_all decide
       · right; with_unfolding_all decide
       · right; with_unfolding_all decide
       · right; with_unfolding_all decide
       · right; with_unfolding_all decide
       · right; with_unfolding_all decide
       · right; with_unfolding_all decide
       · right; with_unfolding_all decide
       · right; with_unfolding_all decide
       · right; with_unfolding_all decide
       · right; with_unfolding_all decide
       · right; with_unfolding_all decide
       · right; with_unfolding_all decide
       · right; with_unfolding_all decide
       · right; with_unfolding_all decide
       · left; rfl)).1⟩

/-! ## Embedding of `floor_plan_parser.py` — regex machinery

Python regexes are modelled by a small backtracking matcher over a token
language (literals, character classes, `.`, `X*` over a class, optional
groups).  For a boolean `search`, the set of reachable remainders is
enumerated; word boundaries are checked at both ends as in `\b`.
`IGNORECASE` is modelled by lower-casing the subject (the patterns are
lower-case); `\w` is modelled on its ASCII fragment. -/

/-- Regex token: literal, class, any char, Kleene star over a class,
optional group. -/
inductive RTok where
  | lit (c : Char)
  | cls (cs : List Char)
  | anyc
  | star (cs : List Char)
  | opt (w : List Char)
deriving Repr

/-- Whitespace class of `\s`. -/
def wsChars : List Char := [' ', '\t', '\n', '\r', '\x0b', '\x0c']

/-- All suffixes reachable by consuming a (possibly empty) run of class
characters. -/
def starSuffixes (cs : List Char) : List Char → List (List Char)
  | [] => [[]]
  | c :: s2 =>
    if cs.contains c then (c :: s2) :: starSuffixes cs s2 else [c :: s2]

/-- All remainders after matching a token list against a prefix of `s`
(an optional group tries presence first, as the engine does). -/
def matchRem : List RTok → List Char → List (List Char)
  | [], s => [s]
  | RTok.lit _ :: _, [] => []
  | RTok.lit c :: ts, c2 :: s2 => if c2 = c then matchRem ts s2 else []
  | RTok.cls _ :: _, [] => []
  | RTok.cls cs :: ts, c2 :: s2 =>
    if cs.contains c2 then matchRem ts s2 else []
  | RTok.anyc :: _, [] => []
  | RTok.anyc :: ts, _ :: s2 => matchRem ts s2
  | RTok.star cs :: ts, s =>
    (starSuffixes cs s).flatMap (fun r => matchRem ts r)
  | RTok.opt w :: ts, s =>
    (if headMatches w s then matchRem ts (s.drop w.length) else []) ++
      matchRem ts s

/-- `\s*`. -/
def rws : RTok := RTok.star wsChars

/-- A literal word as tokens. -/
def lits (s : String) : List RTok := s.data.map RTok.lit

/-- An optional literal group `(?:w)?`. -/
def ropt (s : String) : RTok := RTok.opt s.data

/-- The English alternatives of `_TITLE_BLOCK_KEYWORDS` (wrapped in
`\b(...)\b` in the source), in source order. -/
def englishTitleAlts : List (List RTok) := [
  lits ("bim") ++ [rws] ++ lits ("ref"),
  lits ("bd") ++ [rws] ++ lits ("ref"),
  lits ("bd") ++ [RTok.anyc] ++ lits ("s") ++ [rws] ++ lits ("official"),
  lits ("fsd") ++ [rws] ++ lits ("ref"),
  lits ("source") ++ [rws] ++ lits ("drawing"),
  lits ("rev") ++ [ropt ("ision"), ropt (".")] ++ [rws] ++ lits ("no"),
  lits ("drawing") ++ [rws] ++ lits ("no"),
  lits ("dwg") ++ [ropt (".")] ++ [rws] ++ lits ("no"),
  lits ("drawing") ++ [rws] ++ lits ("title"),
  lits ("project") ++ [rws] ++ lits ("title"),
  lits ("project") ++ [rws] ++ lits ("name"),
  lits ("checked") ++ [rws] ++ lits ("by"),
  lits ("drawn") ++ [rws] ++ lits ("by"),
  lits ("approved") ++ [rws] ++ lits ("by"),
  lits ("authorised") ++ [rws] ++ lits ("by"),
  lits ("signature"),
  lits ("date") ++ [rws] ++ lits ("of") ++ [rws] ++ lits ("issue"),
  lits ("north") ++ [rws] ++ lits ("arrow"),
  lits ("true") ++ [rws] ++ lits ("north"),
  lits ("magnetic") ++ [rws] ++ lits ("north"),
  lits ("general") ++ [rws] ++ lits ("note") ++ [ropt ("s")],
  lits ("legend"),
  lits ("abbreviation") ++ [ropt ("s")],
  lits ("symbol") ++ [ropt ("s")],
  lits ("all") ++ [rws] ++ lits ("dimension") ++ [ropt ("s")] ++ [rws] ++
    lits ("in"),
  lits ("dimension") ++ [ropt ("s")] ++ [rws] ++ lits ("in") ++ [rws] ++
    lits ("mm"),
  lits ("do") ++ [rws] ++ lits ("not") ++ [rws] ++ lits ("scale"),
  lits ("not") ++ [rws] ++ lits ("to") ++ [rws] ++ lits ("scale"),
  lits ("nts"),
  lits ("rev.") ++ [rws] ++ lits ("description"),
  lits ("amendment"),
  lits ("copyright"),
  lits ("all") ++ [rws] ++ lits ("rights") ++ [rws] ++ lits ("reserved"),
  lits ("confidential"),
  lits ("xxx"),
  lits ("a00") ++ [RTok.cls (("0123456789").data)],
  lits ("c00") ++ [RTok.cls (("0123456789").data)]]

/-- The CJK alternatives of `_TITLE_BLOCK_KEYWORDS` (no word boundaries),
in source order. -/
def chineseTitleAlts : List (List Char) :=
  [("圖紙編號").data, ("圖號").data, ("圖名").data, ("圖則編號").data,
   ("項目名稱").data, ("工程名稱").data, ("項目編號").data,
   ("審核").data, ("審批").data, ("核准").data, ("批准").data,
   ("簽署").data, ("簽名").data,
   ("繪圖").data, ("製圖").data, ("校對").data, ("核對").data,
   ("發出日期").data, ("修訂日期").data, ("日期").data,
   ("修訂編號").data, ("修訂記錄").data, ("版本").data,
   ("比例尺").data, ("圖紙比例").data,
   ("備註").data, ("一般備註").data, ("圖例").data, ("縮寫").data,
   ("版權").data, ("保密").data, ("機密").data,
   ("所有尺寸以毫米計").data, ("尺寸單位").data]

/-- `\w` (ASCII fragment). -/
def isWordChar (c : Char) : Bool := c.isAlphanum || c = '_'

/-- Does some boundary-delimited English alternative match at this
position (given whether the previous character is a non-word one)? -/
def engAltHitAt (prevNonWord : Bool) (s : List Char) : Bool :=
  prevNonWord && englishTitleAlts.any (fun alt =>
    (matchRem alt s).any (fun rem =>
      match rem with
      | [] => true
      | c :: _ => !isWordChar c))

/-- Scan all positions of the (lower-cased) subject. -/
def titleHitScan (prevNonWord : Bool) : List Char → Bool
  | [] => false
  | c :: rest =>
    engAltHitAt prevNonWord (c :: rest) ||
    chineseTitleAlts.any (fun a => headMatches a (c :: rest)) ||
    titleHitScan (!isWordChar c) rest

/-- `_TITLE_BLOCK_KEYWORDS.search(text)` as a boolean. -/
def titleKeywordHit (text : List Char) : Bool :=
  titleHitScan true (pyLower text)

/-- `_TITLE_BLOCK_CODE` : `^[A-Z0-9/\-]{1,6}$` (case-sensitive). -/
def titleBlockCode (s : List Char) : Bool :=
  decide (1 ≤ s.length) && decide (s.length ≤ 6) &&
  s.all (fun c =>
    (decide ('A' ≤ c) && decide (c ≤ 'Z')) || c.isDigit || c = '/' || c = '-')

/-- `_TITLE_BLOCK_RIGHT`. -/
def TITLE_BLOCK_RIGHT : ℚ := 0.75

/-- `_TITLE_BLOCK_BOTTOM`. -/
def TITLE_BLOCK_BOTTOM : ℚ := 0.80

/-- `_is_title_block_text`. -/
def is_title_block_text (text : String) (x0 y0 page_width page_height : ℚ) :
    Bool :=
  if page_width > 0 ∧ x0 / page_width > TITLE_BLOCK_RIGHT ∧
      page_height > 0 ∧ y0 / page_height > TITLE_BLOCK_BOTTOM then true
  else if page_height > 0 ∧ y0 / page_height > 0.92 then true
  else if titleKeywordHit text.data then true
  else if titleBlockCode (pyStrip text.data) = true ∧
      page_width > 0 ∧ x0 / page_width > 0.70 then true
  else false

/-! ### `_clean_label` : the `_NOISE` substitution, strip, and collapse -/

/-- Case-insensitive prefix match (pattern lower-case). -/
def headMatchesCI (pat : List Char) (s : List Char) : Bool :=
  headMatches pat (pyLower s)

/-- Length of the optional unit of `_NOISE`'s first alternative
(`(?:m²|m2|sqm|sq\.m)?`), ordered as in the pattern; `0` when absent. -/
def noiseUnitLen (s : List Char) : ℕ :=
  if headMatchesCI (("m²").data) s then 2
  else if headMatchesCI (("m2").data) s then 2
  else if headMatchesCI (("sqm").data) s then 3
  else if headMatchesCI (("sq.m").data) s then 4
  else 0

/-- Match length of `_NOISE`'s first alternative
`\d+(?:\.\d+)?\s*(?:m²|m2|sqm|sq\.m)?` at this position. -/
def noiseNumLen (s : List Char) : Option ℕ :=
  let d1 := leadDigits s
  if d1.isEmpty then none
  else
    let rest1 := afterDigits s
    let fr : ℕ × List Char :=
      match rest1 with
      | '.' :: r2 =>
        let d2 := leadDigits r2
        if d2.isEmpty then (0, rest1) else (1 + d2.length, afterDigits r2)
      | _ => (0, rest1)
    let wsL := (fr.2.takeWhile isPyWS).length
    let rest3 := fr.2.dropWhile isPyWS
    some (d1.length + fr.1 + wsL + noiseUnitLen rest3)

/-- Word boundary after a literal word match. -/
def boundaryAfter (s : List Char) : Bool :=
  match s with
  | [] => true
  | c :: _ => !isWordChar c

/-- Match length of one of `_NOISE`'s word alternatives
(`\bscale\b|\bratio\b|\bfl\b|\bfloor\b`), in pattern order. -/
def noiseWordLen (prevNonWord : Bool) (s : List Char) : Option ℕ :=
  if !prevNonWord then none
  else if headMatchesCI (("scale").data) s && boundaryAfter (s.drop 5) then
    some 5
  else if headMatchesCI (("ratio").data) s && boundaryAfter (s.drop 5) then
    some 5
  else if headMatchesCI (("fl").data) s && boundaryAfter (s.drop 2) then
    some 2
  else if headMatchesCI (("floor").data) s && boundaryAfter (s.drop 5) then
    some 5
  else none

/-- Match length of `_NOISE`'s last alternative `\d{1,2}/f\b` (in the
pattern's alternation this is only reached when the numeric first
alternative failed, i.e. never at a digit — kept for fidelity). -/
def noiseFloorTagLen (s : List Char) : Option ℕ :=
  let d := leadDigits s
  if d.isEmpty ∨ 2 < d.length then none
  else
    match afterDigits s with
    | '/' :: c :: rest =>
      if (c = 'f' ∨ c = 'F') ∧ boundaryAfter rest then
        some (d.length + 2)
      else none
    | _ => none

/-- Match length of `_NOISE` at one position (alternation in pattern
order: number-with-unit, the four noise words, the floor tag). -/
def noiseMatchAt (prevNonWord : Bool) (s : List Char) : Option ℕ :=
  match noiseNumLen s with
  | some n => some n
  | none =>
    match noiseWordLen prevNonWord s with
    | some n => some n
    | none => noiseFloorTagLen s

/-- Fuelled core of the substitution scan: every step consumes at least
one character, so fuel `s.length` never runs out; the fuel only makes
the recursion structural. -/
def noiseSubF : ℕ → Bool → List Char → List Char
  | _, _, [] => []
  | 0, _, _ :: _ => []
  | f + 1, prevNonWord, c :: rest =>
    match noiseMatchAt prevNonWord (c :: rest) with
    | some n =>
      let removed := (c :: rest).take n
      noiseSubF f (match removed.getLast? with
                   | some c2 => !isWordChar c2
                   | none => prevNonWord) (rest.drop (n - 1))
    | none => c :: noiseSubF f (!isWordChar c) rest

/-- `_NOISE.sub("", raw)` : remove every non-overlapping leftmost match,
scanning with the word-boundary state of the previous original
character. -/
def noiseSub (prevNonWord : Bool) (s : List Char) : List Char :=
  noiseSubF s.length prevNonWord s

/-- `_STRIP_CHARS`. -/
def STRIP_CHARS : List Char := (" \t\n\r.,;:-_/\\").data

/-- Fuelled core of the collapse: every step consumes at least one
character, so fuel `s.length` never runs out. -/
def collapseWSF : ℕ → List Char → List Char
  | _, [] => []
  | 0, _ :: _ => []
  | f + 1, c :: rest =>
    if isPyWS c then
      if ((c :: rest).takeWhile isPyWS).length ≥ 2 then
        ' ' :: collapseWSF f (rest.dropWhile isPyWS)
      else c :: collapseWSF f rest
    else c :: collapseWSF f rest

/-- `re.sub` of the whitespace-run pattern: collapse whitespace runs of
length at least 2 into a single space. -/
def collapseWS (s : List Char) : List Char :=
  collapseWSF s.length s

/-- `_clean_label`. -/
def clean_label (raw : String) : String :=
  String.mk (collapseWS (pyStripChars STRIP_CHARS (noiseSub true raw.data)))

/-! ### `_extract_area_from_text` (`_AREA_RE`) -/

/-- The required unit of `_AREA_RE` : `(?:m²|m2|sq\.?\s*m|sqm)`,
alternatives in pattern order. -/
def areaUnitAt (s : List Char) : Bool :=
  if headMatchesCI (("m²").data) s then true
  else if headMatchesCI (("m2").data) s then true
  else if headMatchesCI (("sq").data) s then
    let r1 := s.drop 2
    let r2 := match r1 with
      | '.' :: r => r
      | _ => r1
    let r3 := r2.dropWhile isPyWS
    headMatchesCI (("m").data) r3
  else if headMatchesCI (("sqm").data) s then true
  else false

/-- `_AREA_RE` match at one position: `(\d+(?:\.\d+)?)\s*` then a unit;
returns the captured number. -/
def areaMatchAt (s : List Char) : Option ℚ :=
  let d1 := leadDigits s
  if d1.isEmpty then none
  else
    let rest1 := afterDigits s
    let fr : List Char × List Char :=
      match rest1 with
      | '.' :: r2 =>
        let d2 := leadDigits r2
        if d2.isEmpty then ([], rest1) else (d2, afterDigits r2)
      | _ => ([], rest1)
    let rest3 := fr.2.dropWhile isPyWS
    if areaUnitAt rest3 then some (decimalToQ d1 fr.1) else none

/-- Leftmost search for a matcher over all positions. -/
def searchPos {α : Type} (f : List Char → Option α) : List Char → Option α
  | [] => f []
  | c :: rest =>
    match f (c :: rest) with
    | some v => some v
    | none => searchPos f rest

/-- `_extract_area_from_text`. -/
def extract_area_from_text (text : String) : Option ℚ :=
  searchPos areaMatchAt text.data

/-! ### `_detect_scale` (`_SCALE_PATTERNS`) -/

/-- The class `[:\s]`. -/
def colonWsChars : List Char := ':' :: wsChars

/-- Middle of pattern 1 and 2/3 tails: `\s*[:\s]\s*`. -/
def scaleMiddleToks : List RTok := [rws, RTok.cls colonWsChars, rws]

/-- Pattern 1 `1\s*[:\s]\s*(50|100|200|500)` at one position; the
alternation is ordered, so e.g. `1:500` captures `50`. -/
def scaleP1At (s : List Char) : Option ℕ :=
  match s with
  | '1' :: rest =>
    (matchRem scaleMiddleToks rest).findSome? (fun rem =>
      if headMatches (("50").data) rem then some 50
      else if headMatches (("100").data) rem then some 100
      else if headMatches (("200").data) rem then some 200
      else if headMatches (("500").data) rem then some 500
      else none)
  | _ => none

/-- Tail of patterns 2 and 3: `[:\s]*1\s*[:\s]\s*(\d+)`. -/
def scaleTailToks : List RTok :=
  [RTok.star colonWsChars, RTok.lit '1', rws, RTok.cls colonWsChars, rws]

/-- Group value of patterns 2/3 after their literal prefix. -/
def scaleTailVal (rest : List Char) : Option ℕ :=
  (matchRem scaleTailToks rest).findSome? (fun rem =>
    let ds := leadDigits rem
    if ds.isEmpty then none else some (digitsToNat ds))

/-- Pattern 2 `SCALE\s*[:\s]*1\s*[:\s]\s*(\d+)` (IGNORECASE) at one
position. -/
def scaleP2At (s : List Char) : Option ℕ :=
  if headMatchesCI (("scale").data) s then scaleTailVal (s.drop 5) else none

/-- Pattern 3 `比例\s*[:\s]*1\s*[:\s]\s*(\d+)` at one position. -/
def scaleP3At (s : List Char) : Option ℕ :=
  if headMatches (("比例").data) s then scaleTailVal (s.drop 2) else none

/-- `_detect_scale`: first pattern that matches in any text wins (texts
outer, patterns inner, as in the source). -/
def detect_scale (texts : List String) : Option ℕ :=
  texts.findSome? (fun text =>
    match searchPos scaleP1At text.data with
    | some v => some v
    | none =>
      match searchPos scaleP2At text.data with
      | some v => some v
      | none => searchPos scaleP3At text.data)

/-! ### A structural stable sort (Python `sort` / `sorted` are stable;
any two stable sorts under the same total preorder agree, so an
insertion sort models them exactly). -/

/-- Insert `x` after every element already placed that compares
less-or-equal, keeping equal keys in arrival order. -/
def insertLe {α : Type} (le : α → α → Bool) (x : α) : List α → List α
  | [] => [x]
  | y :: ys => if le y x then y :: insertLe le x ys else x :: y :: ys

/-- Stable insertion sort (elements inserted left to right). -/
def stableSortBy {α : Type} (le : α → α → Bool) (l : List α) : List α :=
  l.foldl (fun acc x => insertLe le x acc) []

theorem insertLe_perm {α : Type} (le : α → α → Bool) (x : α) :
    ∀ (l : List α), List.Perm (insertLe le x l) (x :: l) := by
  intro l
  induction l with
  | nil => exact List.Perm.refl _
  | cons y ys ih =>
    unfold insertLe
    split_ifs
    · exact List.Perm.trans (List.Perm.cons y ih) (List.Perm.swap x y ys)
    · exact List.Perm.refl _

theorem stableSortBy_perm {α : Type} (le : α → α → Bool) (l : List α) :
    List.Perm (stableSortBy le l) l := by
  suffices h : ∀ (l acc : List α),
      List.Perm (l.foldl (fun acc x => insertLe le x acc) acc) (acc ++ l) by
    simpa using h l []
  intro l
  induction l with
  | nil => intro acc; simp
  | cons x xs ih =>
    intro acc
    rw [List.foldl_cons]
    refine List.Perm.trans (ih (insertLe le x acc)) ?_
    have h1 : List.Perm (insertLe le x acc ++ xs) ((x :: acc) ++ xs) :=
      (insertLe_perm le x acc).append_right xs
    refine List.Perm.trans h1 ?_
    simp only [List.cons_append]
    exact (List.perm_middle).symm

/-! ### `_infer_mm_per_pt_from_dimensions` -/

/-- A vector-PDF text block (`{text, x0, y0, x1, y1}`). -/
structure TextBlock where
  text : String
  x0 : ℚ
  y0 : ℚ
  x1 : ℚ
  y1 : ℚ
deriving DecidableEq

/-- A qualifying dimension candidate (`{val, cx, cy}`). -/
structure DimCand where
  val : ℕ
  cx : ℚ
  cy : ℚ
deriving DecidableEq

/-- `_DIM_NUM_RE = ^(\d{3,5})$` : the whole string is 3 to 5 digits. -/
def dimNumMatch (s : List Char) : Bool :=
  s.all Char.isDigit && decide (3 ≤ s.length) && decide (s.length ≤ 5)

def DIM_MIN_MM : ℕ := 200

def DIM_MAX_MM : ℕ := 50000

/-- The candidate a block contributes, if it passes all three filters
(outside the title block, standalone 3-5 digit token, value in range). -/
def candOf (page_width page_height : ℚ) (b : TextBlock) : Option DimCand :=
  let raw := pyStrip b.text.data
  if is_title_block_text (String.mk raw) b.x0 b.y0 page_width page_height then
    none
  else if !dimNumMatch raw then none
  else
    let val := digitsToNat raw
    if DIM_MIN_MM ≤ val ∧ val ≤ DIM_MAX_MM then
      some { val := val, cx := (b.x0 + b.x1) / 2, cy := (b.y0 + b.y1) / 2 }
    else none

/-- `int(round(cy / 5)) * 5` : the horizontal band key. -/
def rowKey (c : DimCand) : ℤ := rndHalfEven (c.cy / 5) * 5

/-- `by_row.setdefault(key, []).append(c)` on an insertion-ordered dict,
modelled as an association list. -/
def addRow (rows : List (ℤ × List DimCand)) (c : DimCand) :
    List (ℤ × List DimCand) :=
  if rows.any (fun r => r.1 = rowKey c) then
    rows.map (fun r => if r.1 = rowKey c then (r.1, r.2 ++ [c]) else r)
  else rows ++ [(rowKey c, [c])]

/-- Group candidates into horizontal bands. -/
def byRow (cands : List DimCand) : List (ℤ × List DimCand) :=
  cands.foldl addRow []

/-- Adjacent pairs `(row[i], row[i+1])`. -/
def adjPairs {α : Type} : List α → List (α × α)
  | a :: b :: rest => (a, b) :: adjPairs (b :: rest)
  | _ => []

/-- The in-window estimates one adjacent pair contributes: each of
`a.val`, `b.val`, `a.val + b.val` over the centre span, kept when inside
`[5, 200]`; the pair is skipped when the span is under 5. -/
def pairEstimates (a b : DimCand) : List ℚ :=
  let span := |b.cx - a.cx|
  if span < 5 then []
  else
    [(a.val : ℚ), (b.val : ℚ), ((a.val : ℚ) + (b.val : ℚ))].filterMap
      (fun v =>
        let r := v / span
        if 5 ≤ r ∧ r ≤ 200 then some r else none)

/-- Estimates of one band: rows of fewer than two candidates contribute
nothing; otherwise the row is sorted by `cx` and adjacent pairs tried. -/
def rowEstimates (row : List DimCand) : List ℚ :=
  if row.length < 2 then []
  else
    (adjPairs (stableSortBy (fun a b => a.cx ≤ b.cx) row)).flatMap
      (fun p => pairEstimates p.1 p.2)

/-- `_infer_mm_per_pt_from_dimensions`. -/
def infer_mm_per_pt_from_dimensions (blocks : List TextBlock)
    (page_width page_height : ℚ) : Option ℚ :=
  let candidates := blocks.filterMap (candOf page_width page_height)
  if candidates.length < 2 then none
  else
    let estimates := (byRow candidates).flatMap (fun r => rowEstimates r.2)
    if estimates.isEmpty then none
    else
      let sorted := stableSortBy (fun a b => a ≤ b) estimates
      some (sorted.getD (sorted.length / 2) 0)

/-! ### `_words_to_rooms` (the OCR adapter's phrase grouping and room
construction) and the undefined `_px_to_m2` helper -/

/-- One OCR word (`{text, conf, x0, y0, x1, y1}`). -/
structure OcrWord where
  text : String
  conf : ℚ
  x0 : ℚ
  y0 : ℚ
  x1 : ℚ
  y1 : ℚ
deriving DecidableEq

/-- One grouped phrase. -/
structure Phrase where
  text : String
  conf : ℚ
  x0 : ℚ
  y0 : ℚ
  x1 : ℚ
  y1 : ℚ
deriving DecidableEq

/-- An `ExtractedRoom` as the OCR adapter builds it. -/
structure ExtractedRoom where
  label : String
  area_m2 : ℚ
  floor : String
  bbox : ℚ × ℚ × ℚ × ℚ
  source : String
  confidence : ℚ
  notes : String
deriving DecidableEq

/-- `" ".join(texts)`. -/
def joinSpace (texts : List String) : String :=
  String.intercalate (" ") texts

/-- The inner grouping test against the seed word `w`:
`abs(w2.y0 - w.y0) < 8 and abs(w2.x0 - w.x1) < 40`. -/
def nearSeed (w w2 : OcrWord) : Bool :=
  |w2.y0 - w.y0| < 8 && |w2.x0 - w.x1| < 40

/-- Indices the seed at `i` absorbs on the inner `for j` pass. -/
def groupAbsorbed (words : List OcrWord) (w : OcrWord) (i : ℕ)
    (used : List Bool) : List ℕ :=
  (List.range words.length).filter (fun j =>
    !(used.getD j true) && decide (i ≠ j) &&
      (match words[j]? with
       | some w2 => nearSeed w w2
       | none => false))

/-- Build one phrase from a group of words: texts joined in stable `x0`
order, mean confidence, enclosing bounding box. -/
def mkPhrase (group : List OcrWord) : Phrase :=
  let sorted := stableSortBy (fun a b => a.x0 ≤ b.x0) group
  { text := joinSpace (sorted.map (fun g => g.text))
    conf := (group.map (fun g => g.conf)).sum / group.length
    x0 := ((group.map (fun g => g.x0)).min?).getD 0
    y0 := ((group.map (fun g => g.y0)).min?).getD 0
    x1 := ((group.map (fun g => g.x1)).max?).getD 0
    y1 := ((group.map (fun g => g.y1)).max?).getD 0 }

/-- One step of the outer `for i, w in enumerate(words)` loop, carrying
the `used` flags and the phrases accumulated so far. -/
def phraseStep (words : List OcrWord) (st : List Bool × List Phrase)
    (i : ℕ) : List Bool × List Phrase :=
  match words[i]? with
  | none => st
  | some w =>
    if st.1.getD i true then st
    else
      let used1 := st.1.set i true
      let absorbed := groupAbsorbed words w i used1
      let group := w :: absorbed.filterMap (fun j => words[j]?)
      let used2 := absorbed.foldl (fun u j => u.set j true) used1
      (used2, st.2 ++ [mkPhrase group])

/-- The phrase list `_words_to_rooms` builds by proximity grouping. -/
def phrasesOf (words : List OcrWord) : List Phrase :=
  ((List.range words.length).foldl (phraseStep words)
    (List.replicate words.length false, [])).2

/-- The pure-punctuation label filter: the whole label is made of
digits, whitespace, and the characters . , : / backslash - . -/
def isDigitsPunct (s : List Char) : Bool :=
  !s.isEmpty && s.all (fun c =>
    c.isDigit || isPyWS c || c = '.' || c = ',' || c = ':' || c = '/' ||
      c = '\\' || c = '-')

/-- The unhandled exception `_words_to_rooms` raises on the
bounding-box-estimate branch: `_px_to_m2` is not defined anywhere in the
program. -/
def nameErrorMsg : String :=
  "NameError: name \u0027_px_to_m2\u0027 is not defined"

/-- The note attached when the estimate branch is reached with
`dpi <= 0` (the only way it completes): `est_area` is `0.0`. -/
def zeroDpiNote (scale : ℕ) (dpi : ℚ) : String :=
  ("⚠️ No area annotation — bbox estimate: ~0.00 m² (scale 1:") ++
    natDigitsStr scale ++ (", DPI ") ++ fmtFixed 0 dpi ++
    ("). Manual verification required.")

/-- Processing of one phrase in `_words_to_rooms`: `none` when the phrase
is filtered out, `some room` when a room is appended, `.error` when the
undefined `_px_to_m2` is reached. -/
def roomOfPhrase (floor source : String) (scale : ℕ) (dpi : ℚ)
    (img_width img_height : ℚ) (p : Phrase) :
    Except String (Option ExtractedRoom) :=
  let raw := String.mk (pyStrip p.text.data)
  if is_title_block_text raw p.x0 p.y0 img_width img_height then .ok none
  else
    let label := clean_label raw
    if label.length < 2 then .ok none
    else if isDigitsPunct label.data then .ok none
    else
      let explicit_area := extract_area_from_text raw
      let room (a : ℚ) (note : String) : ExtractedRoom :=
        { label := label, area_m2 := a, floor := floor
          bbox := (p.x0, p.y0, p.x1, p.y1), source := source
          confidence := p.conf, notes := note }
      match explicit_area with
      | some a =>
        if a = 0 then
          -- a `0` annotation is falsy: the estimate branch is taken
          if 0 < dpi then .error nameErrorMsg
          else .ok (some (room 0 (zeroDpiNote scale dpi)))
        else .ok (some (room a ("")))
      | none =>
        if 0 < dpi then .error nameErrorMsg
        else .ok (some (room 0 (zeroDpiNote scale dpi)))

/-- The scale `_words_to_rooms` uses: the passed-in one unless the
joined word text yields a truthy detected scale. -/
def wordsScale (words : List OcrWord) (scale : ℕ) : ℕ :=
  match detect_scale [joinSpace (words.map (fun w => w.text))] with
  | some d => if d = 0 then scale else d
  | none => scale

/-- One step of the room-building loop over phrases: a raised exception
propagates past the remaining phrases. -/
def phraseFoldStep (floor source : String) (scale : ℕ) (dpi : ℚ)
    (img_width img_height : ℚ)
    (acc : Except String (List ExtractedRoom)) (p : Phrase) :
    Except String (List ExtractedRoom) :=
  match acc with
  | .error e => .error e
  | .ok rs =>
    match roomOfPhrase floor source scale dpi img_width img_height p with
    | .error e => .error e
    | .ok none => .ok rs
    | .ok (some r) => .ok (rs ++ [r])

/-- `_words_to_rooms`: scale sniffing from the joined text, proximity
grouping, then per-phrase filtering and room construction; the first
phrase that reaches the undefined helper aborts the call. -/
def words_to_rooms (words : List OcrWord) (floor : String) (scale : ℕ)
    (source : String) (dpi : ℚ) (img_width img_height : ℚ) :
    Except String (List ExtractedRoom) :=
  (phrasesOf words).foldl
    (phraseFoldStep floor source (wordsScale words scale) dpi
      img_width img_height)
    (.ok [])

/-- The default `dpi` of `_words_to_rooms`. -/
def WORDS_DEFAULT_DPI : ℚ := 150

/-! ### `_parse_dwg_dxf` : label-to-hatch association -/

/-- A CAD text entity (`{raw, x, y, layer}`). -/
structure DwgText where
  raw : String
  x : ℚ
  y : ℚ
  layer : String
deriving DecidableEq

/-- A CAD hatch polygon (`{area_native, cx, cy, layer}`). -/
structure Hatch where
  area_native : ℚ
  cx : ℚ
  cy : ℚ
  layer : String
deriving DecidableEq

/-- An `ExtractedRoom` as the CAD adapter builds it. -/
structure DwgRoom where
  label : String
  area_m2 : ℚ
  layer : String
  floor : String
  source : String
  notes : String
deriving DecidableEq

/-- `_dwg_units_to_m2` (the `scale` argument is accepted and unused, as
in the source). -/
def dwg_units_to_m2 (area_native : ℚ) (scale : ℕ) (unit : String) : ℚ :=
  if pyLower unit.data = ("m").data ∨ pyLower unit.data = ("metres").data ∨
      pyLower unit.data = ("meters").data then
    area_native
  else area_native / 1000000

/-- Squared centroid distance. `math.hypot` is its square root, a
strictly monotone transform, so argmin positions and tie order under the
first-minimum rule are identical. -/
def distSq (tx ty : ℚ) (h : Hatch) : ℚ :=
  (tx - h.cx) ^ 2 + (ty - h.cy) ^ 2

/-- Scan of `min(range(len(hatches)), key=...)` past the first element:
carries the best `(index, squared distance)` so far, replacing only on a
strict improvement (Python `min` keeps the first minimum). -/
def nearestFrom (tx ty : ℚ) : ℕ × ℚ → ℕ → List Hatch → ℕ × ℚ
  | best, _, [] => best
  | best, i, h :: rest =>
    nearestFrom tx ty
      (if distSq tx ty h < best.2 then (i, distSq tx ty h) else best)
      (i + 1) rest

/-- `min(range(len(hatches)), key=lambda i: _dist(tx, ty, hatches[i]))`
over a nonempty hatch list (`0` for the empty list, never consulted). -/
def nearestIdx (tx ty : ℚ) : List Hatch → ℕ
  | [] => 0
  | h :: rest => (nearestFrom tx ty (0, distSq tx ty h) 1 rest).1

/-- The body of the association loop on one text entity, carrying the
rooms built so far and the bound hatch indices (`used_hatches`). -/
def dwgTextStep (hatches : List Hatch) (scale : ℕ) (unit_s floor : String)
    (st : List DwgRoom × List ℕ) (text : DwgText) :
    List DwgRoom × List ℕ :=
  let label := clean_label text.raw
  if label.length < 2 then st
  else
    let explicit_area := extract_area_from_text text.raw
    match hatches with
    | [] =>
      (st.1 ++ [{ label := label, area_m2 := pyRound 4 (pyOrQ explicit_area 0)
                  layer := text.layer, floor := floor, source := ("dwg")
                  notes := ("") }], st.2)
    | _ :: _ =>
      let i := nearestIdx text.x text.y hatches
      match hatches[i]? with
      | none => st
      | some h =>
        (st.1 ++
            [{ label := label
               area_m2 := pyRound 4
                 (pyOrQ explicit_area (dwg_units_to_m2 h.area_native scale unit_s))
               layer := pyOrStr text.layer h.layer, floor := floor
               source := ("dwg"), notes := ("") }],
          st.2 ++ [i])

/-- The room built for a hatch left unbound. -/
def unidentifiedRoom (scale : ℕ) (unit_s floor : String) (h : Hatch) :
    DwgRoom :=
  { label := ("Unidentified Space")
    area_m2 := pyRound 4 (dwg_units_to_m2 h.area_native scale unit_s)
    layer := h.layer, floor := floor, source := ("dwg")
    notes := ("No text label found near this polygon.") }

/-- The scale the CAD adapter uses: the passed-in one unless the text
entities yield a truthy detected scale. -/
def dwgScaleOf (texts : List DwgText) (scale : ℕ) : ℕ :=
  match detect_scale (texts.map (fun t => t.raw)) with
  | some d => if d = 0 then scale else d
  | none => scale

/-- The association phase of `_parse_dwg_dxf`: scale sniffing over the
text entities, the per-text loop, then the unmatched-hatch sweep. -/
def parse_dwg_assoc (texts : List DwgText) (hatches : List Hatch)
    (scale : ℕ) (unit_s floor : String) : List DwgRoom :=
  let scale2 := dwgScaleOf texts scale
  let st := texts.foldl (dwgTextStep hatches scale2 unit_s floor) ([], [])
  st.1 ++ hatches.enum.filterMap (fun p =>
    if st.2.contains p.1 then none
    else some (unidentifiedRoom scale2 unit_s floor p.2))

/-! ### C8 : dimension-annotation calibration -/

/-- The qualifying candidates of a page. -/
def dimCands (blocks : List TextBlock) (pw ph : ℚ) : List DimCand :=
  blocks.filterMap (candOf pw ph)

/-- All in-window ratio estimates of a page. -/
def dimEsts (blocks : List TextBlock) (pw ph : ℚ) : List ℚ :=
  (byRow (dimCands blocks pw ph)).flatMap (fun r => rowEstimates r.2)

theorem infer_eq_branches (blocks : List TextBlock) (pw ph : ℚ) :
    infer_mm_per_pt_from_dimensions blocks pw ph =
      if (dimCands blocks pw ph).length < 2 then none
      else if (dimEsts blocks pw ph).isEmpty then none
      else
        some ((stableSortBy (fun a b => a ≤ b) (dimEsts blocks pw ph)).getD
          ((stableSortBy (fun a b => a ≤ b) (dimEsts blocks pw ph)).length / 2)
          0) := rfl

theorem pairEstimates_window (a b : DimCand) (e : ℚ)
    (he : e ∈ pairEstimates a b) : 5 ≤ e ∧ e ≤ 200 := by
  simp only [pairEstimates] at he
  split_ifs at he with h
  · simp at he
  · obtain ⟨v, _, hfe⟩ := List.mem_filterMap.mp he
    split_ifs at hfe with hw
    cases hfe
    exact hw

theorem dimEsts_window (blocks : List TextBlock) (pw ph : ℚ) (e : ℚ)
    (he : e ∈ dimEsts blocks pw ph) : 5 ≤ e ∧ e ≤ 200 := by
  obtain ⟨r, _, hr⟩ := List.mem_flatMap.mp he
  unfold rowEstimates at hr
  split_ifs at hr with h
  · simp at hr
  · obtain ⟨p, _, hp⟩ := List.mem_flatMap.mp hr
    exact pairEstimates_window p.1 p.2 e hp

/-- The concrete page refuting the claim: two qualifying standalone
dimension tokens (3-5 digits, in the 200-50000 band, outside the title
block), but in distant horizontal bands, so no adjacent pair forms, no
estimate survives, and the function returns `none` even though two
qualifying tokens exist. -/
def blocksC8cex : List TextBlock :=
  [{ text := ("2850"), x0 := 100, y0 := 100, x1 := 140, y1 := 110 },
   { text := ("3000"), x0 := 100, y0 := 300, x1 := 140, y1 := 310 }]

/-- C8 counterexample: on `blocksC8cex` there are exactly two qualifying
tokens, yet `_infer_mm_per_pt_from_dimensions` returns `none`, against
the claim that `None` is returned only when fewer than two qualifying
tokens exist. -/
theorem claim_C8_counterexample :
    (dimCands blocksC8cex 1000 1000).length = 2 ∧
    infer_mm_per_pt_from_dimensions blocksC8cex 1000 1000 = none := by
  constructor
  · with_unfolding_all decide
  · with_unfolding_all rfl

/-- C8 (amended): the calibration returns `none` exactly when fewer than
two qualifying tokens exist or no adjacent-pair ratio falls in the
plausible window; otherwise it returns the lower median of the sorted
estimate list, which is itself one of the computed estimates and lies
inside the `[5, 200]` window. -/
theorem claim_C8_calibration_amended (blocks : List TextBlock)
    (pw ph : ℚ) :
    (infer_mm_per_pt_from_dimensions blocks pw ph = none ↔
      (dimCands blocks pw ph).length < 2 ∨ dimEsts blocks pw ph = []) ∧
    (∀ m, infer_mm_per_pt_from_dimensions blocks pw ph = some m →
      m ∈ dimEsts blocks pw ph ∧ 5 ≤ m ∧ m ≤ 200 ∧
      m = (stableSortBy (fun a b => a ≤ b) (dimEsts blocks pw ph)).getD
            ((stableSortBy (fun a b => a ≤ b) (dimEsts blocks pw ph)).length / 2)
            0) := by
  have hperm := stableSortBy_perm (fun (a b : ℚ) => decide (a ≤ b))
    (dimEsts blocks pw ph)
  constructor
  · rw [infer_eq_branches]
    split_ifs with h1 h2
    · simp [h1]
    · simp [List.isEmpty_iff.mp h2]
    · simp only [List.isEmpty_iff] at h2
      simp [h1, h2]
  · intro m hm
    rw [infer_eq_branches] at hm
    split_ifs at hm with h1 h2
    simp only [List.isEmpty_iff] at h2
    cases hm
    have hlen : (stableSortBy (fun (a b : ℚ) => decide (a ≤ b))
        (dimEsts blocks pw ph)).length = (dimEsts blocks pw ph).length :=
      hperm.length_eq
    have hpos : 0 < (stableSortBy (fun (a b : ℚ) => decide (a ≤ b))
        (dimEsts blocks pw ph)).length := by
      rw [hlen]
      exact List.length_pos.mpr h2
    have hidx : (stableSortBy (fun (a b : ℚ) => decide (a ≤ b))
        (dimEsts blocks pw ph)).length / 2 <
        (stableSortBy (fun (a b : ℚ) => decide (a ≤ b))
          (dimEsts blocks pw ph)).length :=
      Nat.div_lt_of_lt_mul (by omega)
    have hget := List.getD_eq_getElem
      (stableSortBy (fun (a b : ℚ) => decide (a ≤ b))
        (dimEsts blocks pw ph)) 0 hidx
    have hmem : (stableSortBy (fun (a b : ℚ) => decide (a ≤ b))
        (dimEsts blocks pw ph)).getD
        ((stableSortBy (fun (a b : ℚ) => decide (a ≤ b))
          (dimEsts blocks pw ph)).length / 2) 0 ∈ dimEsts blocks pw ph := by
      rw [hget]
      exact hperm.mem_iff.mp (List.getElem_mem hidx)
    exact ⟨hmem, (dimEsts_window blocks pw ph _ hmem).1,
      (dimEsts_window blocks pw ph _ hmem).2, rfl⟩

/-! ### C10 / C6 : the OCR adapter and the undefined `_px_to_m2` -/

/-- The stripped text of a phrase, as the per-phrase loop sees it. -/
def phraseRaw (p : Phrase) : String := String.mk (pyStrip p.text.data)

/-- A phrase survives the three filters: not title-block text, cleaned
label of length at least 2, not purely digits and punctuation. -/
def phraseAccepted (img_width img_height : ℚ) (p : Phrase) : Bool :=
  !is_title_block_text (phraseRaw p) p.x0 p.y0 img_width img_height &&
    decide (2 ≤ (clean_label (phraseRaw p)).length) &&
    !isDigitsPunct (clean_label (phraseRaw p)).data

theorem roomOfPhrase_error_of_missing (fl src : String) (sc : ℕ)
    (dpi w h : ℚ) (p : Phrase)
    (hacc : phraseAccepted w h p = true)
    (hex : extract_area_from_text (phraseRaw p) = none)
    (hdpi : 0 < dpi) :
    roomOfPhrase fl src sc dpi w h p = .error nameErrorMsg := by
  simp only [phraseAccepted, Bool.and_eq_true, Bool.not_eq_true',
    decide_eq_true_eq] at hacc
  obtain ⟨⟨ht, hl⟩, hd⟩ := hacc
  simp only [phraseRaw] at ht hl hd hex
  simp only [roomOfPhrase, ht, Bool.false_eq_true, if_false, hd, hex,
    if_neg (Nat.not_lt.mpr hl), if_pos hdpi]

theorem roomOfPhrase_shape (fl src : String) (sc : ℕ) (dpi w h : ℚ)
    (p : Phrase) :
    roomOfPhrase fl src sc dpi w h p = .error nameErrorMsg ∨
      ∃ o, roomOfPhrase fl src sc dpi w h p = .ok o := by
  rcases hx : extract_area_from_text (String.mk (pyStrip p.text.data))
    with _ | a <;>
    simp only [roomOfPhrase, hx] <;> split_ifs <;>
    first
      | exact Or.inl rfl
      | exact Or.inr ⟨_, rfl⟩

theorem roomsFold_frozen (fl src : String) (sc : ℕ) (dpi w h : ℚ)
    (ps : List Phrase) (e : String) :
    ps.foldl (phraseFoldStep fl src sc dpi w h) (.error e) = .error e := by
  induction ps with
  | nil => rfl
  | cons q qs ih => rw [List.foldl_cons]; exact ih

theorem roomsFold_error (fl src : String) (sc : ℕ) (dpi w h : ℚ) :
    ∀ (ps : List Phrase) (rs : List ExtractedRoom),
      (∃ p ∈ ps, roomOfPhrase fl src sc dpi w h p = .error nameErrorMsg) →
      ps.foldl (phraseFoldStep fl src sc dpi w h) (.ok rs) =
        .error nameErrorMsg := by
  intro ps
  induction ps with
  | nil =>
    intro rs hex
    simp at hex
  | cons q qs ih =>
    intro rs hex
    rw [List.foldl_cons]
    rcases roomOfPhrase_shape fl src sc dpi w h q with hq | ⟨o, hq⟩
    · have hstep : phraseFoldStep fl src sc dpi w h (.ok rs) q =
          .error nameErrorMsg := by
        simp [phraseFoldStep, hq]
      rw [hstep]
      exact roomsFold_frozen fl src sc dpi w h qs nameErrorMsg
    · rcases hex with ⟨p, hp, herr⟩
      rcases List.mem_cons.mp hp with rfl | hmem
      · rw [hq] at herr
        cases herr
      · rcases o with _ | r
        · have hstep : phraseFoldStep fl src sc dpi w h (.ok rs) q =
              .ok rs := by
            simp [phraseFoldStep, hq]
          rw [hstep]
          exact ih rs ⟨p, hmem, herr⟩
        · have hstep : phraseFoldStep fl src sc dpi w h (.ok rs) q =
              .ok (rs ++ [r]) := by
            simp [phraseFoldStep, hq]
          rw [hstep]
          exact ih (rs ++ [r]) ⟨p, hmem, herr⟩

/-- C10: at any positive `dpi` (the default is 150), an accepted phrase
with no explicit area annotation makes `_words_to_rooms` raise the
unhandled `NameError` for the undefined helper `_px_to_m2`; hence the
OCR path returns a result only when every accepted phrase carries an
explicit area annotation. -/
theorem claim_C10_missing_helper_name_error (words : List OcrWord)
    (floor source : String) (scale : ℕ) (dpi : ℚ)
    (img_width img_height : ℚ) (hdpi : 0 < dpi) :
    ((∃ p ∈ phrasesOf words,
        phraseAccepted img_width img_height p = true ∧
        extract_area_from_text (phraseRaw p) = none) →
      words_to_rooms words floor scale source dpi img_width img_height =
        .error nameErrorMsg) ∧
    (∀ rs,
      words_to_rooms words floor scale source dpi img_width img_height =
        .ok rs →
      ∀ p ∈ phrasesOf words,
        phraseAccepted img_width img_height p = true →
        extract_area_from_text (phraseRaw p) ≠ none) := by
  constructor
  · rintro ⟨p, hp, hacc, hnone⟩
    exact roomsFold_error floor source (wordsScale words scale) dpi
      img_width img_height (phrasesOf words) []
      ⟨p, hp, roomOfPhrase_error_of_missing floor source
        (wordsScale words scale) dpi img_width img_height p hacc hnone hdpi⟩
  · intro rs hok p hp hacc hnone
    have herr : words_to_rooms words floor scale source dpi img_width
        img_height = .error nameErrorMsg :=
      roomsFold_error floor source (wordsScale words scale) dpi
        img_width img_height (phrasesOf words) []
        ⟨p, hp, roomOfPhrase_error_of_missing floor source
          (wordsScale words scale) dpi img_width img_height p hacc hnone
          hdpi⟩
    rw [hok] at herr
    cases herr

/-- Two OCR words forming the accepted phrase (Dining Hall) with no
area annotation. -/
def diningWords : List OcrWord :=
  [{ text := ("Dining"), conf := 9/10, x0 := 100, y0 := 100, x1 := 160,
     y1 := 115 },
   { text := ("Hall"), conf := 8/10, x0 := 165, y0 := 102, x1 := 205,
     y1 := 117 }]

/-- The phrase the grouping builds from `diningWords`. -/
def dhPhrase : Phrase :=
  { text := ("Dining Hall"), conf := 17/20, x0 := 100, y0 := 100,
    x1 := 205, y1 := 117 }

set_option maxHeartbeats 1600000 in
theorem claim_C10_missing_helper_name_error_witness :
    (0 : ℚ) < 150 ∧
      words_to_rooms diningWords ("3/F") 100 ("pdf_ocr") 150 1000 1000 =
        .error nameErrorMsg :=
  ⟨by norm_num,
    (claim_C10_missing_helper_name_error diningWords ("3/F")
        ("pdf_ocr") 100 150 1000 1000 (by norm_num)).1
      ⟨dhPhrase,
        by
          have h : phrasesOf diningWords = [dhPhrase] := by
            with_unfolding_all rfl
          rw [h]
          exact List.mem_singleton.mpr rfl,
        by with_unfolding_all rfl,
        by with_unfolding_all decide⟩⟩

/-- Two OCR words forming one accepted phrase carrying the explicit
annotation (5 m2). -/
def denWords : List OcrWord :=
  [{ text := ("Den"), conf := 9/10, x0 := 100, y0 := 100, x1 := 130,
     y1 := 115 },
   { text := ("5m2"), conf := 7/10, x0 := 133, y0 := 101, x1 := 150,
     y1 := 116 }]

/-- The room the OCR adapter builds for `denWords`. -/
def denRoomBuilt : ExtractedRoom :=
  { label := ("Den"), area_m2 := 5, floor := ("3/F")
    bbox := (100, 100, 150, 116), source := ("pdf_ocr")
    confidence := 8/10, notes := ("") }

/-- The phrase the grouping builds from `denWords`. -/
def denPhrase : Phrase :=
  { text := ("Den 5m2"), conf := 8/10, x0 := 100, y0 := 100, x1 := 150,
    y1 := 116 }

set_option maxHeartbeats 4000000 in
/-- C6: the bbox-estimate candidate the spec promises is unreachable.
A phrase carrying an explicit annotation does become a candidate with
that area, the mean per-word confidence and the phrase bounding box;
but a filter-surviving phrase with no annotation makes the adapter
raise the `NameError` for the undefined `_px_to_m2` instead of
producing the bbox-estimated candidate with its verify-manually note. -/
theorem claim_C6_bbox_estimate_unreachable :
    words_to_rooms denWords ("3/F") 100 ("pdf_ocr") 150 1000 1000 =
      .ok [denRoomBuilt] ∧
    words_to_rooms diningWords ("3/F") 100 ("pdf_ocr") 150 1000 1000 =
      .error nameErrorMsg := by
  have h1 : phrasesOf denWords = [denPhrase] := by with_unfolding_all rfl
  have h2 : roomOfPhrase ("3/F") ("pdf_ocr") 100 150 1000 1000 denPhrase =
      .ok (some denRoomBuilt) := by with_unfolding_all rfl
  have h3 : wordsScale denWords 100 = 100 := by with_unfolding_all rfl
  have h4 : phrasesOf diningWords = [dhPhrase] := by with_unfolding_all rfl
  have h5 : roomOfPhrase ("3/F") ("pdf_ocr") 100 150 1000 1000 dhPhrase =
      .error nameErrorMsg := by with_unfolding_all rfl
  have h6 : wordsScale diningWords 100 = 100 := by with_unfolding_all rfl
  constructor
  · unfold words_to_rooms
    rw [h1, h3]
    simp [phraseFoldStep, h2]
  · unfold words_to_rooms
    rw [h4, h6]
    simp [phraseFoldStep, h5]

/-! ### C7 : CAD label-to-hatch association -/

/-- The room one accepted text entity produces (`none` when the label is
rejected): it binds the hatch nearest by centroid distance among ALL
hatches, with no regard to hatches already bound. -/
def dwgRoomOf (hatches : List Hatch) (scale : ℕ) (unit_s floor : String)
    (t : DwgText) : Option DwgRoom :=
  let label := clean_label t.raw
  if label.length < 2 then none
  else
    let explicit_area := extract_area_from_text t.raw
    match hatches with
    | [] =>
      some { label := label, area_m2 := pyRound 4 (pyOrQ explicit_area 0)
             layer := t.layer, floor := floor, source := ("dwg")
             notes := ("") }
    | _ :: _ =>
      match hatches[nearestIdx t.x t.y hatches]? with
      | none => none
      | some h =>
        some { label := label
               area_m2 := pyRound 4 (pyOrQ explicit_area
                 (dwg_units_to_m2 h.area_native scale unit_s))
               layer := pyOrStr t.layer h.layer, floor := floor
               source := ("dwg"), notes := ("") }

/-- The hatch index one text entity binds (`none` when no hatch is
bound). -/
def dwgBoundIdx (hatches : List Hatch) (t : DwgText) : Option ℕ :=
  if (clean_label t.raw).length < 2 then none
  else
    match hatches with
    | [] => none
    | _ :: _ =>
      match hatches[nearestIdx t.x t.y hatches]? with
      | none => none
      | some _ => some (nearestIdx t.x t.y hatches)

theorem dwgFold_spec (hatches : List Hatch) (scale : ℕ)
    (unit_s floor : String) :
    ∀ (texts : List DwgText) (st : List DwgRoom × List ℕ),
      texts.foldl (dwgTextStep hatches scale unit_s floor) st =
        (st.1 ++ texts.filterMap (dwgRoomOf hatches scale unit_s floor),
         st.2 ++ texts.filterMap (dwgBoundIdx hatches)) := by
  intro texts
  induction texts with
  | nil =>
    intro st
    simp
  | cons t ts ih =>
    intro st
    rw [List.foldl_cons, ih]
    by_cases hl : (clean_label t.raw).length < 2
    · simp [dwgTextStep, dwgRoomOf, dwgBoundIdx, hl]
    · cases hh : hatches with
      | nil =>
        simp [dwgTextStep, dwgRoomOf, dwgBoundIdx, hl, hh]
      | cons h hs =>
        cases hi : (h :: hs)[nearestIdx t.x t.y (h :: hs)]? with
        | none =>
          simp [dwgTextStep, dwgRoomOf, dwgBoundIdx, hl, hh, hi]
        | some h2 =>
          simp [dwgTextStep, dwgRoomOf, dwgBoundIdx, hl, hh, hi]

theorem nearestFrom_min (tx ty : ℚ) :
    ∀ (hs : List Hatch) (best : ℕ × ℚ) (i : ℕ),
      (nearestFrom tx ty best i hs).2 ≤ best.2 ∧
      ∀ h ∈ hs, (nearestFrom tx ty best i hs).2 ≤ distSq tx ty h := by
  intro hs
  induction hs with
  | nil =>
    intro best i
    exact ⟨le_refl _, by simp⟩
  | cons h rest ih =>
    intro best i
    simp only [nearestFrom]
    obtain ⟨ih1, ih2⟩ := ih
      (if distSq tx ty h < best.2 then (i, distSq tx ty h) else best)
      (i + 1)
    have hb2 :
        (if distSq tx ty h < best.2 then (i, distSq tx ty h) else best).2 ≤
          best.2 ∧
        (if distSq tx ty h < best.2 then (i, distSq tx ty h) else best).2 ≤
          distSq tx ty h := by
      split_ifs with hc
      · exact ⟨le_of_lt hc, le_refl _⟩
      · exact ⟨le_refl _, le_of_not_lt hc⟩
    refine ⟨le_trans ih1 hb2.1, ?_⟩
    intro h2 hmem
    rcases List.mem_cons.mp hmem with heq | hm
    · subst heq
      exact le_trans ih1 hb2.2
    · exact ih2 h2 hm

theorem nearestFrom_valid (tx ty : ℚ) :
    ∀ (hs : List Hatch) (best : ℕ × ℚ) (i : ℕ),
      nearestFrom tx ty best i hs = best ∨
      ∃ k h, hs[k]? = some h ∧
        nearestFrom tx ty best i hs = (i + k, distSq tx ty h) := by
  intro hs
  induction hs with
  | nil =>
    intro best i
    exact Or.inl rfl
  | cons h rest ih =>
    intro best i
    simp only [nearestFrom]
    rcases ih (if distSq tx ty h < best.2 then (i, distSq tx ty h) else best)
        (i + 1) with heq | ⟨k, h2, hk, heq⟩
    · rw [heq]
      split_ifs with hc
      · exact Or.inr ⟨0, h, by simp, by simp⟩
      · exact Or.inl rfl
    · refine Or.inr ⟨k + 1, h2, by simpa using hk, ?_⟩
      rw [heq]
      congr 1
      omega

theorem nearestIdx_min (tx ty : ℚ) (hs : List Hatch) (hne : hs ≠ []) :
    ∃ hb, hs[nearestIdx tx ty hs]? = some hb ∧
      ∀ h ∈ hs, distSq tx ty hb ≤ distSq tx ty h := by
  cases hs with
  | nil => exact absurd rfl hne
  | cons h rest =>
    obtain ⟨hle, hall⟩ := nearestFrom_min tx ty rest (0, distSq tx ty h) 1
    rcases nearestFrom_valid tx ty rest (0, distSq tx ty h) 1 with
      heq | ⟨k, h2, hk, heq⟩
    · refine ⟨h, ?_, ?_⟩
      · simp only [nearestIdx, heq]
        simp
      · intro h3 hmem
        have hv : (nearestFrom tx ty (0, distSq tx ty h) 1 rest).2 =
            distSq tx ty h := by rw [heq]
        rcases List.mem_cons.mp hmem with h3eq | hm
        · subst h3eq
          exact le_refl _
        · have := hall h3 hm
          rw [hv] at this
          exact this
    · refine ⟨h2, ?_, ?_⟩
      · simp only [nearestIdx, heq]
        rw [Nat.add_comm 1 k]
        simpa using hk
      · intro h3 hmem
        have hv : (nearestFrom tx ty (0, distSq tx ty h) 1 rest).2 =
            distSq tx ty h2 := by rw [heq]
        rcases List.mem_cons.mp hmem with h3eq | hm
        · subst h3eq
          have := hle
          rw [hv] at this
          exact this
        · have := hall h3 hm
          rw [hv] at this
          exact this

/-- C7 (amended): the CAD association in full. Each accepted label binds
the hatch nearest by centroid distance among ALL hatches - the set of
already-bound hatches is never consulted, so one hatch can be bound by
several labels; every hatch whose index is never bound becomes a unit
labeled "Unidentified Space" with the diagnostic note. The nearest
index is a true argmin of the (squared) Euclidean centroid distance. -/
theorem claim_C7_associate_nearest_of_all (texts : List DwgText)
    (hatches : List Hatch) (scale : ℕ) (unit_s floor : String) :
    parse_dwg_assoc texts hatches scale unit_s floor =
      texts.filterMap
        (dwgRoomOf hatches (dwgScaleOf texts scale) unit_s floor) ++
      hatches.enum.filterMap (fun p =>
        if (texts.filterMap (dwgBoundIdx hatches)).contains p.1 then none
        else some (unidentifiedRoom (dwgScaleOf texts scale) unit_s floor
          p.2)) ∧
    (∀ (tx ty : ℚ), hatches ≠ [] →
      ∃ hb, hatches[nearestIdx tx ty hatches]? = some hb ∧
        ∀ h ∈ hatches, distSq tx ty hb ≤ distSq tx ty h) := by
  constructor
  · simp only [parse_dwg_assoc]
    rw [dwgFold_spec]
    simp
  · intro tx ty hne
    exact nearestIdx_min tx ty hatches hne

/-- The two text entities of the counterexample: both nearest to the
first hatch. -/
def dwgTextsCex : List DwgText :=
  [{ raw := ("Kitchen"), x := 0, y := 0, layer := ("") },
   { raw := ("Pantry"), x := 1, y := 0, layer := ("") }]

/-- The two hatches of the counterexample. -/
def dwgHatchesCex : List Hatch :=
  [{ area_native := 7, cx := 0, cy := 0, layer := ("HATCH1") },
   { area_native := 9, cx := 100, cy := 0, layer := ("H2") }]

/-- C7 counterexample: the second label (Pantry) binds the hatch the
first label (Kitchen) already bound - hatch 0, area 7 - instead of the
nearest unused hatch (hatch 1, area 9), so hatch 0 is double-bound and
hatch 1 ends as "Unidentified Space". -/
theorem claim_C7_counterexample :
    parse_dwg_assoc dwgTextsCex dwgHatchesCex 100 ("m") ("G/F") =
      [{ label := ("Kitchen"), area_m2 := 7, layer := ("HATCH1")
         floor := ("G/F"), source := ("dwg"), notes := ("") },
       { label := ("Pantry"), area_m2 := 7, layer := ("HATCH1")
         floor := ("G/F"), source := ("dwg"), notes := ("") },
       { label := ("Unidentified Space"), area_m2 := 9, layer := ("H2")
         floor := ("G/F"), source := ("dwg")
         notes := ("No text label found near this polygon.") }] ∧
    dwgTextsCex.filterMap (dwgBoundIdx dwgHatchesCex) = [0, 0] ∧
    ¬ (dwgTextsCex.filterMap (dwgBoundIdx dwgHatchesCex)).Nodup := by
  refine ⟨?_, ?_, ?_⟩
  · with_unfolding_all rfl
  · with_unfolding_all rfl
  · intro hn
    have : ¬ ([0, 0] : List ℕ).Nodup := by decide
    rw [show dwgTextsCex.filterMap (dwgBoundIdx dwgHatchesCex) =
      [0, 0] from by with_unfolding_all rfl] at hn
    exact this hn
